import Mathlib

/-!
Verification of the Clockify CLI selection/session state manager.

This file gives a shallow embedding, in Lean, of the state-manipulating core of
the repository: the `ClockifyConfig` persistence layer (src/modules/config.py),
the timer lifecycle controller `TimeTracker` (src/modules/time_tracker.py), and
the selection reconciler `TaskDescriptionManager`
(src/modules/task_manager_new.py), together with the `ClientManager`
construction contract (src/modules/client_manager.py, src/app.py,
src/modules/project_manager.py).

Modelling conventions:
  * Python `None`-or-string values are `Option String`; Python truthiness of
    such a value is `truthy` below (`None` and `""` are falsy).
  * The two on-disk JSON documents (`config.json`, `state.json`) are
    association lists `Doc`; `ClockifyConfig` keeps both the in-memory dict
    and the last-saved on-disk copy, mirroring `_load/save_config/save_state`.
  * `ClockifyConfig` in the source has NO property for `client_id`,
    `last_stop_time` or `previous_task`; other modules nevertheless read and
    write them as plain instance attributes.  We model each as a field that is
    `none` while the attribute has never been assigned in this process; reading
    it in that state raises `AttributeError`, exactly as CPython does.  The
    values ever assigned are: strings for `client_id`, `None` or a timestamp
    for `last_stop_time`, and a five-key dict (`Selection`) for
    `previous_task`.
  * The remote service and the break-timer integration are modelled by a
    `World` record; Gateway requests are assumed to succeed (the claims under
    study do not concern network failure), and every remote request is
    appended to a call log so that "no remote call" properties are statable.
  * Printed messages are modelled by representative constant strings (the
    interpolated values of the original f-strings are elided).
-/

namespace Clockify

/-- Python exceptions that the modelled code can raise. -/
inductive PyErr where
  | attributeError (attr : String)
  | typeError (msg : String)
  | clockifyAPIError (msg : String)
deriving Repr, DecidableEq

/-- A JSON scalar stored in one of the configuration documents. -/
inductive JVal where
  | jstr (s : String)
  | jnull
deriving Repr, DecidableEq

/-- A whole-document JSON object, as an association list (src/modules/config.py
stores `_config` and `_state` as Python dicts). -/
abbrev Doc := List (String × JVal)

/-- Dictionary lookup, `d.get(k)`. -/
def docGet : Doc → String → Option JVal
  | [], _ => none
  | (k', v') :: rest, k => if k' = k then some v' else docGet rest k

/-- Dictionary removal `d.pop(k, None)`.  A Python dict holds each key at most
once; on such documents removing every binding of `k` is the same as removing
its single binding. -/
def docPop (d : Doc) (k : String) : Doc :=
  d.filter (fun p => !(p.1 == k))

/-- Dictionary update `d[k] = v`.  On duplicate-free documents this agrees
with the Python in-place update up to the (never observed) iteration order. -/
def docSet (d : Doc) (k : String) (v : JVal) : Doc :=
  docPop d k ++ [(k, v)]

/-- Read a key as an optional string: a `null` value and an absent key both
read back as Python `None` through `ClockifyConfig.get`. -/
def docGetStr (d : Doc) (k : String) : Option String :=
  match docGet d k with
  | some (JVal.jstr s) => some s
  | _ => none

/-- Python truthiness of a `None`-or-string value. -/
def truthy : Option String → Bool
  | none => false
  | some s => !(s == "")

/-- The five-key dict written to `config.previous_task`
(src/modules/task_manager_new.py lines 364-371, 652-659, 670-677). -/
structure Selection where
  client_id : Option String
  project_id : Option String
  task_id : Option String
  task_name : Option String
  description : Option String
deriving Repr, DecidableEq

/-- A snapshot has at least one non-empty field. -/
def Selection.nonEmptyB (s : Selection) : Bool :=
  truthy s.client_id || truthy s.project_id || truthy s.task_id ||
    truthy s.task_name || truthy s.description

/-- The `ClockifyConfig` object (src/modules/config.py).  `_config`/`_state`
are the in-memory dicts, `diskConfig`/`diskState` the saved files.  The last
three fields are the dynamic instance attributes described in the header:
`none` means the attribute has never been assigned in this process. -/
structure ClockifyConfig where
  _config : Doc
  _state : Doc
  diskConfig : Doc
  diskState : Doc
  client_id : Option String
  last_stop_time : Option (Option Int)
  previous_task : Option Selection
deriving Repr, DecidableEq

namespace ClockifyConfig

/-- `ClockifyConfig.__init__`: load both documents from disk; the dynamic
attributes do not exist on a fresh instance. -/
def load (diskC diskS : Doc) : ClockifyConfig :=
  ⟨diskC, diskS, diskC, diskS, none, none, none⟩

/-- `save_config`. -/
def save_config (c : ClockifyConfig) : ClockifyConfig :=
  { c with diskConfig := c._config }

/-- `save_state`. -/
def save_state (c : ClockifyConfig) : ClockifyConfig :=
  { c with diskState := c._state }

/-- `get(key)`. -/
def get (c : ClockifyConfig) (k : String) : Option String :=
  docGetStr c._config k

/-- `set(key, value)`: write-through to `config.json`. -/
def set (c : ClockifyConfig) (k : String) (v : JVal) : ClockifyConfig :=
  save_config { c with _config := docSet c._config k v }

/-- `set_state(key, value)`: write-through to `state.json`. -/
def set_state (c : ClockifyConfig) (k : String) (v : JVal) : ClockifyConfig :=
  save_state { c with _state := docSet c._state k v }

/-- Property `token`. -/
def token (c : ClockifyConfig) : Option String := c.get "token"

/-- Property `workspace_id`. -/
def workspace_id (c : ClockifyConfig) : Option String := c.get "workspace_id"

/-- Property `project_id`. -/
def project_id (c : ClockifyConfig) : Option String := c.get "project_id"

/-- Property `task_id`. -/
def task_id (c : ClockifyConfig) : Option String := c.get "task_id"

/-- Property `task_name`. -/
def task_name (c : ClockifyConfig) : Option String := c.get "task_name"

/-- Property `description`. -/
def description (c : ClockifyConfig) : Option String := c.get "description"

/-- Property `current_entry_id` (read from `state.json`). -/
def current_entry_id (c : ClockifyConfig) : Option String :=
  docGetStr c._state "current_entry_id"

/-- Setter for `project_id`. -/
def set_project_id (c : ClockifyConfig) (v : String) : ClockifyConfig :=
  c.set "project_id" (JVal.jstr v)

/-- Setter for `description`. -/
def set_description (c : ClockifyConfig) (v : String) : ClockifyConfig :=
  c.set "description" (JVal.jstr v)

/-- Setter for `task_name` (stores `null` for `None`, config.py line 114). -/
def set_task_name (c : ClockifyConfig) (v : Option String) : ClockifyConfig :=
  c.set "task_name" (match v with | some s => JVal.jstr s | none => JVal.jnull)

/-- Setter for `task_id` (config.py lines 122-128: a falsy value pops the key
and saves instead of storing it). -/
def set_task_id (c : ClockifyConfig) (v : Option String) : ClockifyConfig :=
  if truthy v then c.set "task_id" (JVal.jstr (v.getD ""))
  else save_config { c with _config := docPop c._config "task_id" }

/-- Setter for `current_entry_id` (config.py lines 146-151: clearing pops the
in-memory key WITHOUT calling `save_state`). -/
def set_current_entry_id (c : ClockifyConfig) (v : Option String) :
    ClockifyConfig :=
  match v with
  | none => { c with _state := docPop c._state "current_entry_id" }
  | some s => c.set_state "current_entry_id" (JVal.jstr s)

/-- Read of the dynamic attribute `config.client_id`: raises when the
attribute was never assigned in this process. -/
def getattr_client_id (c : ClockifyConfig) : Except PyErr String :=
  match c.client_id with
  | none => Except.error (PyErr.attributeError "client_id")
  | some s => Except.ok s

/-- Read of the dynamic attribute `config.last_stop_time`. -/
def getattr_last_stop_time (c : ClockifyConfig) : Except PyErr (Option Int) :=
  match c.last_stop_time with
  | none => Except.error (PyErr.attributeError "last_stop_time")
  | some v => Except.ok v

/-- Read of the dynamic attribute `config.previous_task`. -/
def getattr_previous_task (c : ClockifyConfig) : Except PyErr Selection :=
  match c.previous_task with
  | none => Except.error (PyErr.attributeError "previous_task")
  | some v => Except.ok v

end ClockifyConfig

/-- A workspace task `{id, name}`. -/
structure Task where
  id : String
  name : String
deriving Repr, DecidableEq

/-- A workspace project `{id, name, clientId?}`. -/
structure Project where
  id : String
  name : String
  clientId : Option String
deriving Repr, DecidableEq

/-- A workspace client `{id, name}`. -/
structure Client where
  id : String
  name : String
deriving Repr, DecidableEq

/-- A remote time entry `{id, description, projectId, taskId}` (the fields the
modelled code reads). -/
structure TimeEntry where
  id : String
  description : Option String
  projectId : Option String
  taskId : Option String
deriving Repr, DecidableEq

/-- State of the remote service and of the Gnome Pomodoro integration, as seen
through the Gateway during one invocation.  Requests are assumed to succeed. -/
structure World where
  activeEntry : Option TimeEntry
  clients : List Client
  projects : List Project
  tasks : List (String × List Task)
  pomodoroAvailable : Bool
  pomodoroState : Option String
  now : Int
  nextEntryId : String
deriving Repr, DecidableEq

/-- `api.get_project_tasks(pid)`: the task list of a project. -/
def World.tasksOf (w : World) (pid : String) : List Task :=
  match w.tasks.find? (fun pr => pr.1 == pid) with
  | some pr => pr.2
  | none => []

/-- `find_project_by_id` (src/modules/project_manager.py lines 37-43). -/
def World.findProject (w : World) (pid : String) : Option Project :=
  w.projects.find? (fun p => p.id == pid)

/-- `find_client_by_id` (src/modules/client_manager.py lines 34-40). -/
def World.findClient (w : World) (cid : String) : Option Client :=
  w.clients.find? (fun c => c.id == cid)

/-- One remote HTTP request issued through `ClockifyAPI`.
`getCurrentTimeEntry` stands for the user-id lookup plus the in-progress
entries request that `get_current_time_entry` performs. -/
inductive ApiCall where
  | getCurrentTimeEntry
  | getProjectTasks (pid : String)
  | getProjects
  | getClients
  | startTimeEntry
  | stopTimeEntry
deriving Repr, DecidableEq

/-- Full state of one CLI invocation: the shared `ClockifyConfig` object, the
external world, the remote-request log, the break-timer command log, and the
lines printed so far. -/
structure St where
  cfg : ClockifyConfig
  world : World
  calls : List ApiCall
  pomCalls : List String
  out : List String
deriving Repr, DecidableEq

/-- Append a remote request to the log. -/
def logCall (st : St) (c : ApiCall) : St :=
  { st with calls := st.calls ++ [c] }

/-- Append a printed line. -/
def emit (st : St) (m : String) : St :=
  { st with out := st.out ++ [m] }

/-- Append a break-timer command (`pause`, `resume`, ...). -/
def pomCall (st : St) (m : String) : St :=
  { st with pomCalls := st.pomCalls ++ [m] }

/-- Representative printed messages (interpolated values elided; the source
texts contain apostrophes and braces that are dropped here). -/
def msgAlreadyActive : String := "Time tracking is already active"

def msgNoDescription : String :=
  "No description specified. Use --description or run task select first."

def msgNoProject : String :=
  "No project specified. Use --project-id or run project select first."

def msgStaleStart : String :=
  "Warning: Task ID does not exist in project"

def msgBreakState : String :=
  "Pomodoro in break state, skipping Clockify start"

def msgCooldown : String :=
  "Ignoring resume request shortly after stop (likely spurious)"

def msgStarting : String := "Starting time entry"

def msgStarted : String := "Time entry started successfully"

def msgStartFailed : String := "Error: Failed to start time entry"

def msgNoActive : String := "No active time entry found"

def msgStopping : String := "Stopping time entry..."

def msgStopped : String := "Time entry stopped successfully"

def msgStopFailed : String := "Error: Failed to stop time entry"

def msgNoPrevious : String := "No previous task found."

def msgCapturedLive : String :=
  "Current state captured from running time entry (source of truth)"

def msgNoTimerWarn : String := "Warning: No timer currently running"

def msgIncompletePrev : String := "Previous task state is incomplete."

def msgSwitchingBack : String := "Switching back to previous task..."

def msgProjGone : String := "Error: Previous project no longer exists"

def msgStaleSwitch : String :=
  "Warning: Previous task no longer exists in the project"

def msgNoPrevDescription : String :=
  "Error: Previous task information is incomplete (no description)"

def msgStoppingDueToChange : String :=
  "Stopping current timer due to task/description change..."

def msgPausingPom : String := "Pausing Pomodoro timer..."

def msgResuming : String := "Resuming tracking with new task/description..."

def msgResumingPom : String := "Resuming Pomodoro timer..."

def msgRestartFailed : String := "Failed to restart Clockify timer"

def msgResumeWarning : String := "Warning: Could not resume tracking"

def msgProjectChanged : String := "Project changed to"

def msgTaskSet : String := "Task set to"

def msgTaskCleared : String := "Task cleared (description-only entry)"

def msgDescriptionSet : String := "Description set to"

def msgClientNotFound : String := "Client with ID not found"

def msgClientSet : String := "Current client set to"

/-- `TimeTracker.is_tracking` (src/modules/time_tracker.py lines 23-29): one
remote round-trip, then a null check on the active entry. -/
def is_tracking (st : St) : Bool × St :=
  (st.world.activeEntry.isSome, logCall st ApiCall.getCurrentTimeEntry)

/-- Creation step of `start_tracking` (src/modules/time_tracker.py lines
100-123): POST the new entry, record its id and clear the stop cooldown. -/
def startTracking_create (st : St) : Except PyErr Bool × St :=
  let st := emit st msgStarting
  let st := logCall st ApiCall.startTimeEntry
  let e : TimeEntry :=
    { id := st.world.nextEntryId
      description := some (st.cfg.description.getD "")
      projectId := st.cfg.project_id
      taskId := st.cfg.task_id }
  let st := { st with world := { st.world with activeEntry := some e } }
  if e.id == "" then
    (Except.ok false, emit st msgStartFailed)
  else
    let cfg := st.cfg.set_current_entry_id (some e.id)
    let cfg := { cfg with last_stop_time := some none }
    (Except.ok true, emit { st with cfg := cfg } msgStarted)

/-- Pomodoro guard of `start_tracking` (src/modules/time_tracker.py lines
81-98): refuse during a break; within 10 seconds of a recorded stop while the
break-timer state is null, refuse as a spurious auto-resume.  Reading
`self.config.last_stop_time` raises if the attribute was never assigned. -/
def startTracking_pomodoroGuard (st : St) : Except PyErr Bool × St :=
  if st.world.pomodoroAvailable then
    let s := st.world.pomodoroState
    if s == some "short-break" || s == some "long-break" then
      (Except.ok false, emit st msgBreakState)
    else if s == none || s == some "null" then
      match st.cfg.last_stop_time with
      | none => (Except.error (PyErr.attributeError "last_stop_time"), st)
      | some lastStop =>
        match lastStop with
        | some t =>
          if t == 0 then startTracking_create st
          else if st.world.now - t < 10 then
            (Except.ok false, emit st msgCooldown)
          else startTracking_create st
        | none => startTracking_create st
    else startTracking_create st
  else startTracking_create st

/-- Stale-task validation of `start_tracking` (src/modules/time_tracker.py
lines 65-79): a configured task id that is not in the project task list is
dropped with a warning and the entry proceeds without a formal task. -/
def startTracking_validateTask (st : St) : Except PyErr Bool × St :=
  if truthy st.cfg.task_id then
    let p := st.cfg.project_id.getD ""
    let st := logCall st (ApiCall.getProjectTasks p)
    let tid := st.cfg.task_id.getD ""
    if (st.world.tasksOf p).any (fun t => t.id == tid) then
      startTracking_pomodoroGuard st
    else
      let st := emit st msgStaleStart
      let cfg := (st.cfg.set_task_id none).set_task_name none
      startTracking_pomodoroGuard { st with cfg := cfg }
  else startTracking_pomodoroGuard st

/-- Optional task argument step of `start_tracking` (line 61-62). -/
def startTracking_taskArg (ta : Option String) (st : St) :
    Except PyErr Bool × St :=
  let st :=
    if truthy ta then { st with cfg := st.cfg.set_task_id ta } else st
  startTracking_validateTask st

/-- Project resolution step of `start_tracking` (lines 53-58). -/
def startTracking_projStep (pa ta : Option String) (st : St) :
    Except PyErr Bool × St :=
  if truthy pa then
    startTracking_taskArg ta
      { st with cfg := st.cfg.set_project_id (pa.getD "") }
  else if truthy st.cfg.project_id then startTracking_taskArg ta st
  else (Except.ok false, emit st msgNoProject)

/-- Description resolution step of `start_tracking` (lines 46-51). -/
def startTracking_descStep (da pa ta : Option String) (st : St) :
    Except PyErr Bool × St :=
  if truthy da then
    startTracking_projStep pa ta
      { st with cfg := st.cfg.set_description (da.getD "") }
  else if truthy st.cfg.description then startTracking_projStep pa ta st
  else (Except.ok false, emit st msgNoDescription)

/-- `TimeTracker.start_tracking(description, project_id, task_id)`
(src/modules/time_tracker.py lines 39-123).  The first action is the
`is_tracking` remote check; only then are description and project resolved. -/
def start_tracking (da pa ta : Option String) (st0 : St) :
    Except PyErr Bool × St :=
  let tr := is_tracking st0
  if tr.1 then (Except.ok false, emit tr.2 msgAlreadyActive)
  else startTracking_descStep da pa ta tr.2

/-- `TimeTracker.stop_tracking` (src/modules/time_tracker.py lines 125-152):
check for an active entry, PATCH it closed, clear `current_entry_id` and
record `last_stop_time` for the cooldown guard. -/
def stop_tracking (st0 : St) : Except PyErr Bool × St :=
  let tr := is_tracking st0
  if !tr.1 then (Except.ok false, emit tr.2 msgNoActive)
  else
    let st := emit tr.2 msgStopping
    let st := logCall st ApiCall.stopTimeEntry
    let result := st.world.activeEntry
    let st := { st with world := { st.world with activeEntry := none } }
    match result with
    | some e =>
      if e.id == "" then (Except.ok false, emit st msgStopFailed)
      else
        let cfg := st.cfg.set_current_entry_id none
        let cfg := { cfg with last_stop_time := some (some st.world.now) }
        (Except.ok true, emit { st with cfg := cfg } msgStopped)
    | none => (Except.ok false, emit st msgStopFailed)

/-- `ClientManager.set_current_client` (src/modules/client_manager.py lines
88-97): look the client up remotely, then assign the `client_id` attribute on
the config object.  Nothing is written to either document. -/
def set_current_client (cid : String) (st : St) : Bool × St :=
  let st := logCall st ApiCall.getClients
  match st.world.findClient cid with
  | none => (false, emit st msgClientNotFound)
  | some _ =>
      (true,
        emit { st with cfg := { st.cfg with client_id := some cid } }
          msgClientSet)

/-- Snapshot step of `set_current_task_and_description`
(src/modules/task_manager_new.py lines 361-371): when asked to save and the
current selection has a non-empty task id, task name or description, build the
five-key dict from the config (reading the `client_id` attribute, which raises
when never assigned) and store it in the `previous_task` attribute. -/
def setCurrent_snapshot (save_previous_state : Bool) (st : St) :
    Except PyErr Unit × St :=
  if save_previous_state &&
      (truthy st.cfg.task_id || truthy st.cfg.task_name ||
        truthy st.cfg.description) then
    match st.cfg.client_id with
    | none => (Except.error (PyErr.attributeError "client_id"), st)
    | some c =>
      let snap : Selection :=
        ⟨some c, st.cfg.project_id, st.cfg.task_id, st.cfg.task_name,
          st.cfg.description⟩
      (Except.ok (),
        { st with cfg := { st.cfg with previous_task := some snap } })
  else (Except.ok (), st)

/-- Stop-timer step of `set_current_task_and_description` (lines 373-408):
record whether Clockify and the break-timer were running, stop/pause both.
Returns `(was_tracking, was_pomodoro_running)`; the `_should_resume_tracking`
flags are modelled as these return values. -/
def setCurrent_stopTimer (stop_timer : Bool) (st : St) : Bool × Bool × St :=
  if stop_timer then
    let tr := is_tracking st
    let wasT := tr.1
    let st := tr.2
    let wasP :=
      st.world.pomodoroAvailable && (st.world.pomodoroState == some "pomodoro")
    let st :=
      if wasT then (stop_tracking (emit st msgStoppingDueToChange)).2 else st
    let st := if wasP then pomCall (emit st msgPausingPom) "pause" else st
    (wasT, wasP, st)
  else (false, false, st)

/-- Client update step (lines 410-413): guarded comparison against the
`client_id` attribute; only a truthy incoming id triggers the read and the
(attribute-only) write. -/
def setCurrent_client (cid : Option String) (st : St) :
    Except PyErr Unit × St :=
  if truthy cid then
    match st.cfg.client_id with
    | none => (Except.error (PyErr.attributeError "client_id"), st)
    | some cur =>
      if (cid.getD "") == cur then (Except.ok (), st)
      else
        (Except.ok (),
          { st with cfg := { st.cfg with client_id := some (cid.getD "") } })
  else (Except.ok (), st)

/-- Project update step (lines 415-422): only a truthy incoming id that
differs from the persisted one is written (a `None` project never clears the
stored project). -/
def setCurrent_project (pid : Option String) (st : St) : St :=
  if truthy pid && !(pid == st.cfg.project_id) then
    let st := logCall st ApiCall.getProjects
    let st := emit st msgProjectChanged
    { st with cfg := st.cfg.set_project_id (pid.getD "") }
  else st

/-- Field application step (lines 424-433): task id, task name and description
are always written. -/
def setCurrent_apply (tid tname : Option String) (desc : String) (st : St) :
    St :=
  let cfg := ((st.cfg.set_task_id tid).set_task_name tname).set_description desc
  let st := { st with cfg := cfg }
  let st := if truthy tname then emit st msgTaskSet else emit st msgTaskCleared
  emit st msgDescriptionSet

/-- Resume step (lines 435-481): when the switch stopped a timer, resume the
break-timer first and then restart Clockify through `start_tracking`; any
exception from the restart is caught and reported as a warning. -/
def setCurrent_resume (stop_timer wasT wasP : Bool) (st : St) : St :=
  if stop_timer && (wasT || wasP) then
    let st := emit st msgResuming
    let st :=
      if wasP && st.world.pomodoroAvailable then
        pomCall (emit st msgResumingPom) "resume"
      else st
    match start_tracking none none none st with
    | (Except.ok true, st') => st'
    | (Except.ok false, st') => emit st' msgRestartFailed
    | (Except.error _, st') => emit st' msgResumeWarning
  else st

/-- `TaskDescriptionManager.set_current_task_and_description`
(src/modules/task_manager_new.py lines 347-481), with the Gateway assumed
reliable so the two internal try/except blocks never fire for remote
reasons. -/
def set_current_task_and_description (tid tname : Option String)
    (desc : String) (pid cid : Option String)
    (stop_timer save_previous_state : Bool) (st0 : St) :
    Except PyErr Unit × St :=
  match setCurrent_snapshot save_previous_state st0 with
  | (Except.error e, st) => (Except.error e, st)
  | (Except.ok _, st) =>
    match setCurrent_stopTimer stop_timer st with
    | (wasT, wasP, st) =>
      match setCurrent_client cid st with
      | (Except.error e, st) => (Except.error e, st)
      | (Except.ok _, st) =>
        let st := setCurrent_project pid st
        let st := setCurrent_apply tid tname desc st
        let st := setCurrent_resume stop_timer wasT wasP st
        (Except.ok (), st)

/-- Live-state capture step of `switch_to_previous_task`
(src/modules/task_manager_new.py lines 622-677): prefer the remote active
entry as source of truth; with no timer running, snapshot the persisted
selection instead (only when it has a non-empty task/name/description, and
reading the `client_id` attribute then). -/
def switch_capture (st : St) : Except PyErr Unit × St :=
  let st := logCall st ApiCall.getCurrentTimeEntry
  match st.world.activeEntry with
  | some e =>
    let cd := e.description
    let cp := e.projectId
    let ct := e.taskId
    let r1 :=
      if truthy ct && truthy cp then
        let st := logCall st (ApiCall.getProjectTasks (cp.getD ""))
        (((st.world.tasksOf (cp.getD "")).find?
            (fun t => t.id == ct.getD "")).map Task.name, st)
      else ((none : Option String), st)
    let ctn := r1.1
    let st := r1.2
    let r2 :=
      if truthy cp then
        let st := logCall st ApiCall.getProjects
        ((st.world.findProject (cp.getD "")).bind Project.clientId, st)
      else ((none : Option String), st)
    let cc := r2.1
    let st := r2.2
    let snap : Selection := ⟨cc, cp, ct, ctn, cd⟩
    (Except.ok (),
      emit { st with cfg := { st.cfg with previous_task := some snap } }
        msgCapturedLive)
  | none =>
    let st := emit st msgNoTimerWarn
    if truthy st.cfg.task_id || truthy st.cfg.task_name ||
        truthy st.cfg.description then
      match st.cfg.client_id with
      | none => (Except.error (PyErr.attributeError "client_id"), st)
      | some c =>
        let snap : Selection :=
          ⟨some c, st.cfg.project_id, st.cfg.task_id, st.cfg.task_name,
            st.cfg.description⟩
        (Except.ok (),
          { st with cfg := { st.cfg with previous_task := some snap } })
    else (Except.ok (), st)

/-- Application tail of `switch_to_previous_task` (lines 705-731): re-validate
the target task against the remote task list, dropping it (with a warning)
when it no longer exists, then apply the target through
`set_current_task_and_description` with re-snapshotting suppressed. -/
def switch_apply (prev : Selection) (st : St) : Except PyErr Bool × St :=
  if truthy prev.description then
    let r :=
      if truthy prev.project_id && truthy prev.task_id then
        let p := prev.project_id.getD ""
        let st := logCall st (ApiCall.getProjectTasks p)
        if (st.world.tasksOf p).any
            (fun t => t.id == prev.task_id.getD "") then
          (prev.task_id, prev.task_name, st)
        else ((none : Option String), (none : Option String),
          emit st msgStaleSwitch)
      else (prev.task_id, prev.task_name, st)
    match r with
    | (tid, tname, st) =>
      match set_current_task_and_description tid tname
          (prev.description.getD "") prev.project_id prev.client_id
          true false st with
      | (Except.error e, st') => (Except.error e, st')
      | (Except.ok _, st') => (Except.ok true, st')
  else (Except.ok false, emit st msgNoPrevDescription)

/-- `TaskDescriptionManager.switch_to_previous_task`
(src/modules/task_manager_new.py lines 609-731).  The first statement reads
the `previous_task` attribute, which raises `AttributeError` when it was never
assigned in this process; every value the program ever assigns to it is a
five-key dict and hence truthy, so the `if not previous_task` history check on
lines 617-620 can never fire after a successful read. -/
def switch_to_previous_task (st0 : St) : Except PyErr Bool × St :=
  match st0.cfg.previous_task with
  | none => (Except.error (PyErr.attributeError "previous_task"), st0)
  | some prev =>
    match switch_capture st0 with
    | (Except.error e, st) => (Except.error e, st)
    | (Except.ok _, st) =>
      if !truthy prev.task_id && !truthy prev.task_name &&
          !truthy prev.description then
        (Except.ok false, emit st msgIncompletePrev)
      else
        let st := emit st msgSwitchingBack
        if truthy prev.project_id then
          let st := logCall st ApiCall.getProjects
          if (st.world.findProject (prev.project_id.getD "")).isNone then
            (Except.ok false, emit st msgProjGone)
          else switch_apply prev st
        else switch_apply prev st

/-- `TaskDescriptionManager.get_descriptions_for_task` candidate predicate
(src/modules/task_manager_new.py lines 40-53): an entry contributes its
stripped description when it belongs to the requested project, the stripped
description is non-empty, and its task id matches or is null. -/
def descCandidate (project_id task_id : String) (entry : TimeEntry) :
    Option String :=
  let edesc := (entry.description.getD "").trim
  if entry.projectId == some project_id && !(edesc == "") &&
      (entry.taskId == some task_id || entry.taskId == none) then
    some edesc
  else none

/-- `TaskDescriptionManager.get_descriptions_for_task`
(src/modules/task_manager_new.py lines 30-55): the distinct candidates,
sorted (Python builds a set and returns the sorted list). -/
def get_descriptions_for_task (entries : List TimeEntry)
    (project_id task_id : String) : List String :=
  ((entries.filterMap (descCandidate project_id task_id)).dedup).insertionSort
    (fun a b => a ≤ b)

/-- Objects passed around during component setup (only their identity
matters for the construction-arity contract). -/
inductive PyObj where
  | apiObj
  | configObj
  | cacheObj
deriving Repr, DecidableEq

/-- A constructed `ClientManager` holding its two declared attributes. -/
structure ClientManagerObj where
  api : PyObj
  config : PyObj
deriving Repr, DecidableEq

/-- Calling `ClientManager(...)`: `__init__` declares exactly the parameters
`api` and `config` besides `self` (src/modules/client_manager.py lines 13-15),
so any other positional-argument count raises `TypeError`. -/
def ClientManager.call_init (args : List PyObj) :
    Except PyErr ClientManagerObj :=
  match args with
  | [api, config] => Except.ok ⟨api, config⟩
  | _ =>
    Except.error
      (PyErr.typeError "ClientManager.__init__ positional argument count")

/-- Outcome of `setup_components` (src/app.py lines 134-184): either the
constructed managers or the `sys.exit` path of the
`except ClockifyAPIError` handler. -/
inductive SetupResult where
  | components (cm : ClientManagerObj)
  | exitConfigError
deriving Repr, DecidableEq

/-- `setup_components` component-construction tail (src/app.py lines 167-184):
line 175 evaluates `ClientManager(api, config, cache)` inside a `try` that
catches only `ClockifyAPIError`, so a `TypeError` escapes. -/
def setup_components : Except PyErr SetupResult :=
  match ClientManager.call_init [PyObj.apiObj, PyObj.configObj,
      PyObj.cacheObj] with
  | Except.ok cm => Except.ok (SetupResult.components cm)
  | Except.error (PyErr.clockifyAPIError _) =>
      Except.ok SetupResult.exitConfigError
  | Except.error e => Except.error e

/-- The client-selection branches of
`ProjectManager.select_project_interactive` (src/modules/project_manager.py
lines 93-96, 107-109 and 136-138) each evaluate
`ClientManager(self.api, self.config, self.cache)`. -/
def select_project_interactive_clientManager : Except PyErr ClientManagerObj :=
  ClientManager.call_init [PyObj.apiObj, PyObj.configObj, PyObj.cacheObj]

/-- The five selection-relevant values held by a config object: the
`client_id` attribute (when assigned) and the four persisted properties. -/
def selectionOf (c : ClockifyConfig) : Selection :=
  ⟨c.client_id, c.project_id, c.task_id, c.task_name, c.description⟩

/-! ### Document and property lemmas -/

theorem docGet_append (a b : Doc) (k : String) :
    docGet (a ++ b) k =
      (match docGet a k with | some v => some v | none => docGet b k) := by
  induction a with
  | nil => simp [docGet]
  | cons hd tl ih =>
    by_cases h : hd.1 = k <;> simp [docGet, h, ih]

theorem docGet_docPop_self (d : Doc) (k : String) :
    docGet (docPop d k) k = none := by
  induction d with
  | nil => rfl
  | cons hd tl ih =>
    unfold docPop at ih ⊢
    rw [List.filter_cons]
    by_cases h : hd.1 = k
    · simp [h, ih]
    · simp [h, docGet, ih]

theorem docGet_docPop_ne (d : Doc) {k k' : String} (h : k' ≠ k) :
    docGet (docPop d k) k' = docGet d k' := by
  induction d with
  | nil => rfl
  | cons hd tl ih =>
    unfold docPop at ih ⊢
    rw [List.filter_cons]
    by_cases h1 : hd.1 = k
    · have h2 : ¬hd.1 = k' := fun hc => h (by rw [← hc, h1])
      simp [h1, docGet, h2, ih, Ne.symm h]
    · by_cases h2 : hd.1 = k' <;> simp [h1, h2, docGet, ih, h]

theorem docGet_docSet_self (d : Doc) (k : String) (v : JVal) :
    docGet (docSet d k v) k = some v := by
  simp [docSet, docGet_append, docGet_docPop_self, docGet]

theorem docGet_docSet_ne (d : Doc) {k k' : String} (v : JVal) (h : k' ≠ k) :
    docGet (docSet d k v) k' = docGet d k' := by
  simp only [docSet, docGet_append, docGet_docPop_ne d h, docGet,
    if_neg (Ne.symm h)]
  cases docGet d k' <;> rfl

theorem docGetStr_docSet_self (d : Doc) (k : String) (v : JVal) :
    docGetStr (docSet d k v) k =
      (match v with | JVal.jstr s => some s | JVal.jnull => none) := by
  cases v <;> simp [docGetStr, docGet_docSet_self]

theorem docGetStr_docSet_ne (d : Doc) {k k' : String} (v : JVal)
    (h : k' ≠ k) : docGetStr (docSet d k v) k' = docGetStr d k' := by
  simp [docGetStr, docGet_docSet_ne d v h]

theorem docGetStr_docPop_self (d : Doc) (k : String) :
    docGetStr (docPop d k) k = none := by
  simp [docGetStr, docGet_docPop_self]

theorem docGetStr_docPop_ne (d : Doc) {k k' : String} (h : k' ≠ k) :
    docGetStr (docPop d k) k' = docGetStr d k' := by
  simp [docGetStr, docGet_docPop_ne d h]

namespace ClockifyConfig

@[simp] theorem project_id_set_project_id (c : ClockifyConfig) (v : String) :
    (c.set_project_id v).project_id = some v := by
  simp [set_project_id, set, save_config, project_id, get,
    docGetStr_docSet_self]

@[simp] theorem task_id_set_project_id (c : ClockifyConfig) (v : String) :
    (c.set_project_id v).task_id = c.task_id := by
  simp [set_project_id, set, save_config, task_id, get,
    docGetStr_docSet_ne _ _ (by decide : "task_id" ≠ "project_id")]

@[simp] theorem task_name_set_project_id (c : ClockifyConfig) (v : String) :
    (c.set_project_id v).task_name = c.task_name := by
  simp [set_project_id, set, save_config, task_name, get,
    docGetStr_docSet_ne _ _ (by decide : "task_name" ≠ "project_id")]

@[simp] theorem description_set_project_id (c : ClockifyConfig) (v : String) :
    (c.set_project_id v).description = c.description := by
  simp [set_project_id, set, save_config, description, get,
    docGetStr_docSet_ne _ _ (by decide : "description" ≠ "project_id")]

@[simp] theorem client_id_set_project_id (c : ClockifyConfig) (v : String) :
    (c.set_project_id v).client_id = c.client_id := by
  simp [set_project_id, set, save_config]

@[simp] theorem last_stop_time_set_project_id (c : ClockifyConfig)
    (v : String) : (c.set_project_id v).last_stop_time = c.last_stop_time := by
  simp [set_project_id, set, save_config]

@[simp] theorem previous_task_set_project_id (c : ClockifyConfig)
    (v : String) : (c.set_project_id v).previous_task = c.previous_task := by
  simp [set_project_id, set, save_config]

@[simp] theorem project_id_set_description (c : ClockifyConfig) (v : String) :
    (c.set_description v).project_id = c.project_id := by
  simp [set_description, set, save_config, project_id, get,
    docGetStr_docSet_ne _ _ (by decide : "project_id" ≠ "description")]

@[simp] theorem task_id_set_description (c : ClockifyConfig) (v : String) :
    (c.set_description v).task_id = c.task_id := by
  simp [set_description, set, save_config, task_id, get,
    docGetStr_docSet_ne _ _ (by decide : "task_id" ≠ "description")]

@[simp] theorem task_name_set_description (c : ClockifyConfig) (v : String) :
    (c.set_description v).task_name = c.task_name := by
  simp [set_description, set, save_config, task_name, get,
    docGetStr_docSet_ne _ _ (by decide : "task_name" ≠ "description")]

@[simp] theorem description_set_description (c : ClockifyConfig)
    (v : String) : (c.set_description v).description = some v := by
  simp [set_description, set, save_config, description, get,
    docGetStr_docSet_self]

@[simp] theorem client_id_set_description (c : ClockifyConfig) (v : String) :
    (c.set_description v).client_id = c.client_id := by
  simp [set_description, set, save_config]

@[simp] theorem last_stop_time_set_description (c : ClockifyConfig)
    (v : String) :
    (c.set_description v).last_stop_time = c.last_stop_time := by
  simp [set_description, set, save_config]

@[simp] theorem previous_task_set_description (c : ClockifyConfig)
    (v : String) : (c.set_description v).previous_task = c.previous_task := by
  simp [set_description, set, save_config]

@[simp] theorem project_id_set_task_name (c : ClockifyConfig)
    (v : Option String) : (c.set_task_name v).project_id = c.project_id := by
  simp [set_task_name, set, save_config, project_id, get,
    docGetStr_docSet_ne _ _ (by decide : "project_id" ≠ "task_name")]

@[simp] theorem task_id_set_task_name (c : ClockifyConfig)
    (v : Option String) : (c.set_task_name v).task_id = c.task_id := by
  simp [set_task_name, set, save_config, task_id, get,
    docGetStr_docSet_ne _ _ (by decide : "task_id" ≠ "task_name")]

@[simp] theorem task_name_set_task_name (c : ClockifyConfig)
    (v : Option String) : (c.set_task_name v).task_name = v := by
  cases v <;>
    simp [set_task_name, set, save_config, task_name, get,
      docGetStr_docSet_self]

@[simp] theorem description_set_task_name (c : ClockifyConfig)
    (v : Option String) : (c.set_task_name v).description = c.description := by
  simp [set_task_name, set, save_config, description, get,
    docGetStr_docSet_ne _ _ (by decide : "description" ≠ "task_name")]

@[simp] theorem client_id_set_task_name (c : ClockifyConfig)
    (v : Option String) : (c.set_task_name v).client_id = c.client_id := by
  simp [set_task_name, set, save_config]

@[simp] theorem last_stop_time_set_task_name (c : ClockifyConfig)
    (v : Option String) :
    (c.set_task_name v).last_stop_time = c.last_stop_time := by
  simp [set_task_name, set, save_config]

@[simp] theorem previous_task_set_task_name (c : ClockifyConfig)
    (v : Option String) :
    (c.set_task_name v).previous_task = c.previous_task := by
  simp [set_task_name, set, save_config]

@[simp] theorem project_id_set_task_id (c : ClockifyConfig)
    (v : Option String) : (c.set_task_id v).project_id = c.project_id := by
  by_cases h : truthy v = true <;>
    simp [set_task_id, h, set, save_config, project_id, get,
      docGetStr_docSet_ne _ _ (by decide : "project_id" ≠ "task_id"),
      docGetStr_docPop_ne _ (by decide : "project_id" ≠ "task_id")]

@[simp] theorem task_id_set_task_id (c : ClockifyConfig) (v : Option String) :
    (c.set_task_id v).task_id =
      (if truthy v then some (v.getD "") else none) := by
  by_cases h : truthy v = true <;>
    simp [set_task_id, h, set, save_config, task_id, get,
      docGetStr_docSet_self, docGetStr_docPop_self]

@[simp] theorem task_name_set_task_id (c : ClockifyConfig)
    (v : Option String) : (c.set_task_id v).task_name = c.task_name := by
  by_cases h : truthy v = true <;>
    simp [set_task_id, h, set, save_config, task_name, get,
      docGetStr_docSet_ne _ _ (by decide : "task_name" ≠ "task_id"),
      docGetStr_docPop_ne _ (by decide : "task_name" ≠ "task_id")]

@[simp] theorem description_set_task_id (c : ClockifyConfig)
    (v : Option String) : (c.set_task_id v).description = c.description := by
  by_cases h : truthy v = true <;>
    simp [set_task_id, h, set, save_config, description, get,
      docGetStr_docSet_ne _ _ (by decide : "description" ≠ "task_id"),
      docGetStr_docPop_ne _ (by decide : "description" ≠ "task_id")]

@[simp] theorem client_id_set_task_id (c : ClockifyConfig)
    (v : Option String) : (c.set_task_id v).client_id = c.client_id := by
  by_cases h : truthy v = true <;> simp [set_task_id, h, set, save_config]

@[simp] theorem last_stop_time_set_task_id (c : ClockifyConfig)
    (v : Option String) :
    (c.set_task_id v).last_stop_time = c.last_stop_time := by
  by_cases h : truthy v = true <;> simp [set_task_id, h, set, save_config]

@[simp] theorem previous_task_set_task_id (c : ClockifyConfig)
    (v : Option String) :
    (c.set_task_id v).previous_task = c.previous_task := by
  by_cases h : truthy v = true <;> simp [set_task_id, h, set, save_config]

@[simp] theorem project_id_set_current_entry_id (c : ClockifyConfig)
    (v : Option String) :
    (c.set_current_entry_id v).project_id = c.project_id := by
  cases v <;> simp [set_current_entry_id, set_state, save_state, project_id,
    get]

@[simp] theorem task_id_set_current_entry_id (c : ClockifyConfig)
    (v : Option String) :
    (c.set_current_entry_id v).task_id = c.task_id := by
  cases v <;> simp [set_current_entry_id, set_state, save_state, task_id, get]

@[simp] theorem task_name_set_current_entry_id (c : ClockifyConfig)
    (v : Option String) :
    (c.set_current_entry_id v).task_name = c.task_name := by
  cases v <;> simp [set_current_entry_id, set_state, save_state, task_name,
    get]

@[simp] theorem description_set_current_entry_id (c : ClockifyConfig)
    (v : Option String) :
    (c.set_current_entry_id v).description = c.description := by
  cases v <;> simp [set_current_entry_id, set_state, save_state, description,
    get]

@[simp] theorem client_id_set_current_entry_id (c : ClockifyConfig)
    (v : Option String) :
    (c.set_current_entry_id v).client_id = c.client_id := by
  cases v <;> simp [set_current_entry_id, set_state, save_state]

@[simp] theorem last_stop_time_set_current_entry_id (c : ClockifyConfig)
    (v : Option String) :
    (c.set_current_entry_id v).last_stop_time = c.last_stop_time := by
  cases v <;> simp [set_current_entry_id, set_state, save_state]

@[simp] theorem previous_task_set_current_entry_id (c : ClockifyConfig)
    (v : Option String) :
    (c.set_current_entry_id v).previous_task = c.previous_task := by
  cases v <;> simp [set_current_entry_id, set_state, save_state]

end ClockifyConfig

@[simp] theorem truthy_none : truthy none = false := rfl

@[simp] theorem truthy_some (s : String) : truthy (some s) = !(s == "") :=
  rfl

@[simp] theorem task_id_with_client (c : ClockifyConfig) (v : Option String) :
    ({ c with client_id := v } : ClockifyConfig).task_id = c.task_id := rfl

@[simp] theorem task_name_with_client (c : ClockifyConfig)
    (v : Option String) :
    ({ c with client_id := v } : ClockifyConfig).task_name = c.task_name :=
  rfl

@[simp] theorem project_id_with_client (c : ClockifyConfig)
    (v : Option String) :
    ({ c with client_id := v } : ClockifyConfig).project_id = c.project_id :=
  rfl

@[simp] theorem description_with_client (c : ClockifyConfig)
    (v : Option String) :
    ({ c with client_id := v } : ClockifyConfig).description =
      c.description := rfl

@[simp] theorem task_id_with_last_stop (c : ClockifyConfig)
    (v : Option (Option Int)) :
    ({ c with last_stop_time := v } : ClockifyConfig).task_id = c.task_id :=
  rfl

@[simp] theorem task_name_with_last_stop (c : ClockifyConfig)
    (v : Option (Option Int)) :
    ({ c with last_stop_time := v } : ClockifyConfig).task_name =
      c.task_name := rfl

@[simp] theorem project_id_with_last_stop (c : ClockifyConfig)
    (v : Option (Option Int)) :
    ({ c with last_stop_time := v } : ClockifyConfig).project_id =
      c.project_id := rfl

@[simp] theorem description_with_last_stop (c : ClockifyConfig)
    (v : Option (Option Int)) :
    ({ c with last_stop_time := v } : ClockifyConfig).description =
      c.description := rfl

@[simp] theorem task_id_with_previous (c : ClockifyConfig)
    (v : Option Selection) :
    ({ c with previous_task := v } : ClockifyConfig).task_id = c.task_id :=
  rfl

@[simp] theorem task_name_with_previous (c : ClockifyConfig)
    (v : Option Selection) :
    ({ c with previous_task := v } : ClockifyConfig).task_name =
      c.task_name := rfl

@[simp] theorem project_id_with_previous (c : ClockifyConfig)
    (v : Option Selection) :
    ({ c with previous_task := v } : ClockifyConfig).project_id =
      c.project_id := rfl

@[simp] theorem description_with_previous (c : ClockifyConfig)
    (v : Option Selection) :
    ({ c with previous_task := v } : ClockifyConfig).description =
      c.description := rfl

@[simp] theorem cfg_emit (st : St) (m : String) : (emit st m).cfg = st.cfg :=
  rfl

@[simp] theorem world_emit (st : St) (m : String) :
    (emit st m).world = st.world := rfl

@[simp] theorem calls_emit (st : St) (m : String) :
    (emit st m).calls = st.calls := rfl

@[simp] theorem out_emit (st : St) (m : String) :
    (emit st m).out = st.out ++ [m] := rfl

@[simp] theorem cfg_logCall (st : St) (c : ApiCall) :
    (logCall st c).cfg = st.cfg := rfl

@[simp] theorem world_logCall (st : St) (c : ApiCall) :
    (logCall st c).world = st.world := rfl

@[simp] theorem calls_logCall (st : St) (c : ApiCall) :
    (logCall st c).calls = st.calls ++ [c] := rfl

@[simp] theorem out_logCall (st : St) (c : ApiCall) :
    (logCall st c).out = st.out := rfl

@[simp] theorem pomCalls_emit (st : St) (m : String) :
    (emit st m).pomCalls = st.pomCalls := rfl

@[simp] theorem pomCalls_logCall (st : St) (c : ApiCall) :
    (logCall st c).pomCalls = st.pomCalls := rfl

@[simp] theorem cfg_pomCall (st : St) (m : String) :
    (pomCall st m).cfg = st.cfg := rfl

@[simp] theorem world_pomCall (st : St) (m : String) :
    (pomCall st m).world = st.world := rfl

@[simp] theorem calls_pomCall (st : St) (m : String) :
    (pomCall st m).calls = st.calls := rfl

@[simp] theorem out_pomCall (st : St) (m : String) :
    (pomCall st m).out = st.out := rfl

@[simp] theorem is_tracking_fst (st : St) :
    (is_tracking st).1 = st.world.activeEntry.isSome := rfl

@[simp] theorem is_tracking_snd (st : St) :
    (is_tracking st).2 = logCall st ApiCall.getCurrentTimeEntry := rfl

/-! ### Preservation of the `previous_task` attribute

Only two statements in the modelled code assign `config.previous_task`: the
guarded snapshot in `set_current_task_and_description` and the live/persisted
capture in `switch_to_previous_task`.  The following lemmas show every other
operation leaves it unchanged. -/

theorem previous_task_startTracking_create (st : St) :
    (startTracking_create st).2.cfg.previous_task = st.cfg.previous_task := by
  simp only [startTracking_create]
  split <;> simp

theorem previous_task_startTracking_pomodoroGuard (st : St) :
    (startTracking_pomodoroGuard st).2.cfg.previous_task =
      st.cfg.previous_task := by
  simp only [startTracking_pomodoroGuard]
  repeat' split
  all_goals simp [previous_task_startTracking_create]

theorem previous_task_startTracking_validateTask (st : St) :
    (startTracking_validateTask st).2.cfg.previous_task =
      st.cfg.previous_task := by
  simp only [startTracking_validateTask]
  repeat' split
  all_goals simp [previous_task_startTracking_pomodoroGuard]

theorem previous_task_startTracking_taskArg (ta : Option String) (st : St) :
    (startTracking_taskArg ta st).2.cfg.previous_task =
      st.cfg.previous_task := by
  simp only [startTracking_taskArg]
  split
  all_goals simp [previous_task_startTracking_validateTask]

theorem previous_task_startTracking_projStep (pa ta : Option String)
    (st : St) :
    (startTracking_projStep pa ta st).2.cfg.previous_task =
      st.cfg.previous_task := by
  simp only [startTracking_projStep]
  repeat' split
  all_goals simp [previous_task_startTracking_taskArg]

theorem previous_task_startTracking_descStep (da pa ta : Option String)
    (st : St) :
    (startTracking_descStep da pa ta st).2.cfg.previous_task =
      st.cfg.previous_task := by
  simp only [startTracking_descStep]
  repeat' split
  all_goals simp [previous_task_startTracking_projStep]

theorem previous_task_start_tracking (da pa ta : Option String) (st : St) :
    (start_tracking da pa ta st).2.cfg.previous_task =
      st.cfg.previous_task := by
  simp only [start_tracking]
  split
  all_goals simp [previous_task_startTracking_descStep]

theorem previous_task_stop_tracking (st : St) :
    (stop_tracking st).2.cfg.previous_task = st.cfg.previous_task := by
  simp only [stop_tracking]
  repeat' split
  all_goals simp

theorem previous_task_setCurrent_stopTimer (b : Bool) (st : St) :
    (setCurrent_stopTimer b st).2.2.cfg.previous_task =
      st.cfg.previous_task := by
  simp only [setCurrent_stopTimer]
  repeat' split
  all_goals simp [previous_task_stop_tracking]

theorem previous_task_setCurrent_client (cid : Option String) (st : St) :
    (setCurrent_client cid st).2.cfg.previous_task =
      st.cfg.previous_task := by
  simp only [setCurrent_client]
  repeat' split
  all_goals simp

theorem previous_task_setCurrent_project (pid : Option String) (st : St) :
    (setCurrent_project pid st).cfg.previous_task = st.cfg.previous_task := by
  simp only [setCurrent_project]
  split
  all_goals simp

theorem previous_task_setCurrent_apply (tid tname : Option String)
    (desc : String) (st : St) :
    (setCurrent_apply tid tname desc st).cfg.previous_task =
      st.cfg.previous_task := by
  simp only [setCurrent_apply]
  split
  all_goals simp

theorem previous_task_setCurrent_resume (b wasT wasP : Bool) (st : St) :
    (setCurrent_resume b wasT wasP st).cfg.previous_task =
      st.cfg.previous_task := by
  simp only [setCurrent_resume]
  split
  case isFalse => rfl
  case isTrue h =>
    simp only [world_emit]
    generalize hst1 :
      (if (wasP && st.world.pomodoroAvailable) = true then
          pomCall (emit (emit st msgResuming) msgResumingPom) "resume"
        else emit st msgResuming) = st1
    have h1 : st1.cfg.previous_task = st.cfg.previous_task := by
      rw [← hst1]
      split <;> simp
    have h2 := previous_task_start_tracking none none none st1
    rcases hr : start_tracking none none none st1 with ⟨r, st'⟩
    rw [hr] at h2
    simp only [] at h2
    cases r with
    | ok bv => cases bv <;> simp [h2, h1]
    | error e => simp [h2, h1]

theorem previous_task_set_current_noSave (tid tname : Option String)
    (desc : String) (pid cid : Option String) (b : Bool) (st : St) :
    (set_current_task_and_description tid tname desc pid cid b false
        st).2.cfg.previous_task = st.cfg.previous_task := by
  have hsnap : setCurrent_snapshot false st = (Except.ok (), st) := by
    simp [setCurrent_snapshot]
  simp only [set_current_task_and_description, hsnap]
  rcases hstop : setCurrent_stopTimer b st with ⟨wasT, wasP, st1⟩
  have h1 : st1.cfg.previous_task = st.cfg.previous_task := by
    have hx := previous_task_setCurrent_stopTimer b st
    rw [hstop] at hx
    exact hx
  rcases hcl : setCurrent_client cid st1 with ⟨rc, st2⟩
  have h2 : st2.cfg.previous_task = st1.cfg.previous_task := by
    have hx := previous_task_setCurrent_client cid st1
    rw [hcl] at hx
    exact hx
  cases rc with
  | error e => simp [h2, h1]
  | ok u =>
    simp [previous_task_setCurrent_resume, previous_task_setCurrent_apply,
      previous_task_setCurrent_project, h2, h1]

/-! ### Characterization of `set_current_task_and_description` on an idle
world (no active entry, break-timer unavailable) -/

theorem setCurrent_stopTimer_idle (st : St)
    (hA : st.world.activeEntry = none)
    (hP : st.world.pomodoroAvailable = false) :
    setCurrent_stopTimer true st =
      (false, false, logCall st ApiCall.getCurrentTimeEntry) := by
  simp [setCurrent_stopTimer, hA, hP]

theorem setCurrent_resume_noflags (b : Bool) (st : St) :
    setCurrent_resume b false false st = st := by
  simp [setCurrent_resume]

theorem setCurrent_client_ok (cid : Option String) (st : St)
    (hC : truthy cid = true → st.cfg.client_id.isSome = true) :
    ∃ st2, setCurrent_client cid st = (Except.ok (), st2) ∧
      st2.world = st.world ∧
      st2.calls = st.calls ∧
      st2.out = st.out ∧
      st2.cfg.previous_task = st.cfg.previous_task ∧
      st2.cfg.project_id = st.cfg.project_id ∧
      st2.cfg.task_id = st.cfg.task_id ∧
      st2.cfg.task_name = st.cfg.task_name ∧
      st2.cfg.description = st.cfg.description ∧
      st2.cfg.last_stop_time = st.cfg.last_stop_time ∧
      st2.cfg.client_id =
        (if truthy cid then some (cid.getD "") else st.cfg.client_id) := by
  by_cases h : truthy cid = true
  · obtain ⟨c0, hc0⟩ := Option.isSome_iff_exists.mp (hC h)
    by_cases heq : (cid.getD "" == c0) = true
    · refine ⟨st, ?_, rfl, rfl, rfl, rfl, rfl, rfl, rfl, rfl, rfl, ?_⟩
      · simp [setCurrent_client, h, hc0, heq]
      · rw [hc0, if_pos h]
        exact congrArg some (beq_iff_eq.mp heq).symm
    · have hx : setCurrent_client cid st = (Except.ok (), { st with cfg := { st.cfg with client_id := some (cid.getD "") } }) := by
        simp [setCurrent_client, h, hc0, heq]
      refine ⟨{ st with cfg := { st.cfg with client_id := some (cid.getD "") } }, hx, rfl, rfl, rfl, ?_, ?_, ?_, ?_, ?_, ?_, ?_⟩
      all_goals
        simp [h, ClockifyConfig.project_id, ClockifyConfig.task_id,
          ClockifyConfig.task_name, ClockifyConfig.description,
          ClockifyConfig.get]
  · refine ⟨st, ?_, rfl, rfl, rfl, rfl, rfl, rfl, rfl, rfl, rfl, ?_⟩
    · simp [setCurrent_client, h]
    · simp [h]

theorem setCurrent_project_spec (pid : Option String) (st : St) :
    (setCurrent_project pid st).world = st.world ∧
      (setCurrent_project pid st).cfg.previous_task =
        st.cfg.previous_task ∧
      (setCurrent_project pid st).cfg.client_id = st.cfg.client_id ∧
      (setCurrent_project pid st).cfg.task_id = st.cfg.task_id ∧
      (setCurrent_project pid st).cfg.task_name = st.cfg.task_name ∧
      (setCurrent_project pid st).cfg.description = st.cfg.description ∧
      (setCurrent_project pid st).cfg.last_stop_time =
        st.cfg.last_stop_time ∧
      (setCurrent_project pid st).cfg.project_id =
        (if truthy pid then some (pid.getD "") else st.cfg.project_id) ∧
      (∃ t, (setCurrent_project pid st).out = st.out ++ t) := by
  by_cases h1 : truthy pid = true
  · by_cases h2 : (pid == st.cfg.project_id) = true
    · have hpe : pid = st.cfg.project_id := beq_iff_eq.mp h2
      have : setCurrent_project pid st = st := by
        simp [setCurrent_project, h2]
      rw [this, if_pos h1]
      refine ⟨rfl, rfl, rfl, rfl, rfl, rfl, rfl, ?_, ⟨[], by simp⟩⟩
      rw [← hpe]
      cases pid with
      | none => simp [truthy] at h1
      | some s => rfl
    · have : setCurrent_project pid st =
          { logCall (emit st msgProjectChanged) ApiCall.getProjects with
            cfg := st.cfg.set_project_id (pid.getD "") } := by
        simp [setCurrent_project, h1, h2, logCall, emit]
      rw [this, if_pos h1]
      refine ⟨rfl, ?_, ?_, ?_, ?_, ?_, ?_, ?_, ⟨[msgProjectChanged], ?_⟩⟩ <;>
        simp [logCall, emit]
  · have : setCurrent_project pid st = st := by
      simp [setCurrent_project, h1]
    rw [this, if_neg h1]
    exact ⟨rfl, rfl, rfl, rfl, rfl, rfl, rfl, rfl, ⟨[], by simp⟩⟩

theorem setCurrent_apply_spec (tid tname : Option String) (desc : String)
    (st : St) :
    (setCurrent_apply tid tname desc st).world = st.world ∧
      (setCurrent_apply tid tname desc st).cfg.previous_task =
        st.cfg.previous_task ∧
      (setCurrent_apply tid tname desc st).cfg.client_id =
        st.cfg.client_id ∧
      (setCurrent_apply tid tname desc st).cfg.project_id =
        st.cfg.project_id ∧
      (setCurrent_apply tid tname desc st).cfg.last_stop_time =
        st.cfg.last_stop_time ∧
      (setCurrent_apply tid tname desc st).cfg.task_id =
        (if truthy tid then some (tid.getD "") else none) ∧
      (setCurrent_apply tid tname desc st).cfg.task_name = tname ∧
      (setCurrent_apply tid tname desc st).cfg.description = some desc ∧
      (∃ t, (setCurrent_apply tid tname desc st).out = st.out ++ t) := by
  simp only [setCurrent_apply]
  by_cases h : truthy tname = true <;>
    simp [h]

theorem set_current_spec_idle (st : St) (tid tname : Option String)
    (desc : String) (pid cid : Option String)
    (hA : st.world.activeEntry = none)
    (hP : st.world.pomodoroAvailable = false)
    (hC : truthy cid = true → st.cfg.client_id.isSome = true) :
    ∃ st', set_current_task_and_description tid tname desc pid cid true false
        st = (Except.ok (), st') ∧
      st'.world = st.world ∧
      st'.cfg.previous_task = st.cfg.previous_task ∧
      st'.cfg.client_id =
        (if truthy cid then some (cid.getD "") else st.cfg.client_id) ∧
      st'.cfg.project_id =
        (if truthy pid then some (pid.getD "") else st.cfg.project_id) ∧
      st'.cfg.task_id = (if truthy tid then some (tid.getD "") else none) ∧
      st'.cfg.task_name = tname ∧
      st'.cfg.description = some desc ∧
      st'.cfg.last_stop_time = st.cfg.last_stop_time ∧
      (∃ t, st'.out = st.out ++ t) := by
  have hsnap : setCurrent_snapshot false st = (Except.ok (), st) := by
    simp [setCurrent_snapshot]
  have hstop := setCurrent_stopTimer_idle st hA hP
  have hC1 : truthy cid = true →
      (logCall st ApiCall.getCurrentTimeEntry).cfg.client_id.isSome = true :=
    hC
  obtain ⟨st2, hcl, hw2, _, hout2, hprev2, hproj2, htask2, hname2, hdesc2,
    hlast2, hclient2⟩ :=
    setCurrent_client_ok cid (logCall st ApiCall.getCurrentTimeEntry) hC1
  obtain ⟨pw, pprev, pcl, ptask, pname, pdesc, plast, pproj, pt, pout⟩ :=
    setCurrent_project_spec pid st2
  obtain ⟨aw, aprev, acl, aproj, alast, atask, aname, adesc, at', aout⟩ :=
    setCurrent_apply_spec tid tname desc (setCurrent_project pid st2)
  refine ⟨setCurrent_apply tid tname desc (setCurrent_project pid st2),
    ?_, ?_, ?_, ?_, ?_, ?_, ?_, ?_, ?_, ?_⟩
  · simp only [set_current_task_and_description, hsnap, hstop, hcl,
      setCurrent_resume_noflags]
  · rw [aw, pw, hw2]
    rfl
  · rw [aprev, pprev, hprev2]
    rfl
  · rw [acl, pcl, hclient2]
    rfl
  · rw [aproj, pproj, hproj2]
    rfl
  · exact atask
  · exact aname
  · exact adesc
  · rw [alast, plast, hlast2]
    rfl
  · refine ⟨pt ++ at', ?_⟩
    rw [aout, pout, hout2]
    simp

/-! ### Characterization of `switch_to_previous_task` on an idle world -/

/-- The switch target carries a formal task reference that the remote task
list no longer contains: the code drops to description-only. -/
def staleDropB (w : World) (P : Selection) : Bool :=
  truthy P.project_id && truthy P.task_id &&
    !((w.tasksOf (P.project_id.getD "")).any
      (fun t => t.id == P.task_id.getD ""))

theorem switch_capture_idle (st : St)
    (hA : st.world.activeEntry = none)
    (hcap : (truthy st.cfg.task_id || truthy st.cfg.task_name ||
        truthy st.cfg.description) = true → st.cfg.client_id.isSome = true) :
    ∃ stc, switch_capture st = (Except.ok (), stc) ∧
      stc.world = st.world ∧
      stc.cfg.client_id = st.cfg.client_id ∧
      stc.cfg.project_id = st.cfg.project_id ∧
      stc.cfg.task_id = st.cfg.task_id ∧
      stc.cfg.task_name = st.cfg.task_name ∧
      stc.cfg.description = st.cfg.description ∧
      stc.cfg.last_stop_time = st.cfg.last_stop_time ∧
      (∃ t, stc.out = st.out ++ t) ∧
      stc.cfg.previous_task =
        (if truthy st.cfg.task_id || truthy st.cfg.task_name ||
            truthy st.cfg.description then
          some ⟨some (st.cfg.client_id.getD ""), st.cfg.project_id,
            st.cfg.task_id, st.cfg.task_name, st.cfg.description⟩
        else st.cfg.previous_task) := by
  by_cases hg : (truthy st.cfg.task_id || truthy st.cfg.task_name ||
      truthy st.cfg.description) = true
  · obtain ⟨c, hc⟩ := Option.isSome_iff_exists.mp (hcap hg)
    have hx : switch_capture st = (Except.ok (), { emit (logCall st ApiCall.getCurrentTimeEntry) msgNoTimerWarn with cfg := { st.cfg with previous_task := some ⟨some c, st.cfg.project_id, st.cfg.task_id, st.cfg.task_name, st.cfg.description⟩ } }) := by
      simp [switch_capture, hA, hg, hc, logCall, emit]
    refine ⟨_, hx, rfl, rfl, rfl, rfl, rfl, rfl, rfl,
      ⟨[msgNoTimerWarn], rfl⟩, ?_⟩
    rw [if_pos hg, hc]
    rfl
  · have hx : switch_capture st =
        (Except.ok (),
          emit (logCall st ApiCall.getCurrentTimeEntry) msgNoTimerWarn) := by
      simp [switch_capture, hA, hg]
    refine ⟨_, hx, rfl, rfl, rfl, rfl, rfl, rfl, rfl,
      ⟨[msgNoTimerWarn], rfl⟩, ?_⟩
    rw [if_neg hg]
    rfl

theorem switch_apply_spec_idle (P : Selection) (st : St)
    (hA : st.world.activeEntry = none)
    (hPom : st.world.pomodoroAvailable = false)
    (hdesc : truthy P.description = true)
    (hcid : truthy P.client_id = true → st.cfg.client_id.isSome = true) :
    ∃ st', switch_apply P st = (Except.ok true, st') ∧
      st'.world = st.world ∧
      st'.cfg.previous_task = st.cfg.previous_task ∧
      st'.cfg.client_id =
        (if truthy P.client_id then some (P.client_id.getD "")
          else st.cfg.client_id) ∧
      st'.cfg.project_id =
        (if truthy P.project_id then some (P.project_id.getD "")
          else st.cfg.project_id) ∧
      st'.cfg.task_id =
        (if staleDropB st.world P then none
          else if truthy P.task_id then some (P.task_id.getD "") else none) ∧
      st'.cfg.task_name =
        (if staleDropB st.world P then none else P.task_name) ∧
      (staleDropB st.world P = true → msgStaleSwitch ∈ st'.out) ∧
      st'.cfg.description = some (P.description.getD "") := by
  by_cases hr : (truthy P.project_id && truthy P.task_id) = true
  · by_cases hf : ((st.world.tasksOf (P.project_id.getD "")).any
        (fun t => t.id == P.task_id.getD "")) = true
    · have hdrop : staleDropB st.world P = false := by
        simp [staleDropB, hf]
      obtain ⟨st', heq, hw, hprev, hcl, hproj, htask, hname, hdsc, hlast,
        hout⟩ :=
        set_current_spec_idle
          (logCall st (ApiCall.getProjectTasks (P.project_id.getD "")))
          P.task_id P.task_name (P.description.getD "") P.project_id
          P.client_id hA hPom hcid
      refine ⟨st', ?_, ?_, ?_, ?_, ?_, ?_, ?_, ?_, ?_⟩
      · simp only [switch_apply, world_logCall, world_emit]
        rw [if_pos hdesc, if_pos hr, if_pos hf]
        simp only []
        rw [heq]
      · exact hw
      · exact hprev
      · exact hcl
      · exact hproj
      · rw [hdrop]
        simpa using htask
      · rw [hdrop]
        simpa using hname
      · rw [hdrop]
        intro h
        cases h
      · exact hdsc
    · have hf' : ((st.world.tasksOf (P.project_id.getD "")).any
          (fun t => t.id == P.task_id.getD "")) = false := by
        revert hf
        cases ((st.world.tasksOf (P.project_id.getD "")).any
          (fun t => t.id == P.task_id.getD "")) <;> simp
      have hdrop : staleDropB st.world P = true := by
        simp [staleDropB, hr, hf']
      obtain ⟨st', heq, hw, hprev, hcl, hproj, htask, hname, hdsc, hlast,
        hout⟩ :=
        set_current_spec_idle
          (emit (logCall st (ApiCall.getProjectTasks (P.project_id.getD "")))
            msgStaleSwitch)
          none none (P.description.getD "") P.project_id P.client_id hA hPom
          hcid
      obtain ⟨t, hout'⟩ := hout
      refine ⟨st', ?_, ?_, ?_, ?_, ?_, ?_, ?_, ?_, ?_⟩
      · simp only [switch_apply, world_logCall, world_emit]
        rw [if_pos hdesc, if_pos hr, if_neg (by simp [hf'])]
        simp only []
        rw [heq]
      · exact hw
      · exact hprev
      · exact hcl
      · exact hproj
      · rw [hdrop]
        simpa using htask
      · rw [hdrop]
        simpa using hname
      · intro _
        rw [hout']
        simp
      · exact hdsc
  · have hr' : (truthy P.project_id && truthy P.task_id) = false := by
      revert hr
      cases (truthy P.project_id && truthy P.task_id) <;> simp
    have hdrop : staleDropB st.world P = false := by
      simp only [staleDropB, Bool.and_assoc] at hr' ⊢
      rcases Bool.and_eq_false_iff.mp
        (by simpa [Bool.and_assoc] using hr') with h | h
      · simp [h]
      · simp [h]
    obtain ⟨st', heq, hw, hprev, hcl, hproj, htask, hname, hdsc, hlast,
      hout⟩ :=
      set_current_spec_idle st P.task_id P.task_name (P.description.getD "")
        P.project_id P.client_id hA hPom hcid
    refine ⟨st', ?_, ?_, ?_, ?_, ?_, ?_, ?_, ?_, ?_⟩
    · simp only [switch_apply, world_logCall, world_emit]
      rw [if_pos hdesc, if_neg (by simp [hr'])]
      simp only []
      rw [heq]
    · exact hw
    · exact hprev
    · exact hcl
    · exact hproj
    · rw [hdrop]
      simpa using htask
    · rw [hdrop]
      simpa using hname
    · rw [hdrop]
      intro h
      cases h
    · exact hdsc

theorem switch_spec_idle (st : St) (P : Selection)
    (hprev : st.cfg.previous_task = some P)
    (hA : st.world.activeEntry = none)
    (hPom : st.world.pomodoroAvailable = false)
    (hdesc : truthy P.description = true)
    (hproj : truthy P.project_id = true →
      (st.world.findProject (P.project_id.getD "")).isSome = true)
    (hcap : (truthy st.cfg.task_id || truthy st.cfg.task_name ||
        truthy st.cfg.description) = true → st.cfg.client_id.isSome = true)
    (hcid : truthy P.client_id = true → st.cfg.client_id.isSome = true) :
    ∃ st', switch_to_previous_task st = (Except.ok true, st') ∧
      st'.world = st.world ∧
      st'.cfg.previous_task =
        (if truthy st.cfg.task_id || truthy st.cfg.task_name ||
            truthy st.cfg.description then
          some ⟨some (st.cfg.client_id.getD ""), st.cfg.project_id,
            st.cfg.task_id, st.cfg.task_name, st.cfg.description⟩
        else some P) ∧
      st'.cfg.client_id =
        (if truthy P.client_id then some (P.client_id.getD "")
          else st.cfg.client_id) ∧
      st'.cfg.project_id =
        (if truthy P.project_id then some (P.project_id.getD "")
          else st.cfg.project_id) ∧
      st'.cfg.task_id =
        (if staleDropB st.world P then none
          else if truthy P.task_id then some (P.task_id.getD "") else none) ∧
      st'.cfg.task_name =
        (if staleDropB st.world P then none else P.task_name) ∧
      (staleDropB st.world P = true → msgStaleSwitch ∈ st'.out) ∧
      st'.cfg.description = some (P.description.getD "") := by
  obtain ⟨stc, hcx, hcw, hccl, hcproj, hctask, hcname, hcdesc, hclast,
    hcout, hcprev⟩ := switch_capture_idle st hA hcap
  have hincomplete :
      ¬((!truthy P.task_id && !truthy P.task_name &&
        !truthy P.description) = true) := by
    simp [hdesc]
  by_cases hp : truthy P.project_id = true
  · obtain ⟨pr, hpr⟩ := Option.isSome_iff_exists.mp (hproj hp)
    have hAc : (logCall (emit stc msgSwitchingBack)
        ApiCall.getProjects).world.activeEntry = none := by
      show stc.world.activeEntry = none
      rw [hcw]
      exact hA
    have hPomc : (logCall (emit stc msgSwitchingBack)
        ApiCall.getProjects).world.pomodoroAvailable = false := by
      show stc.world.pomodoroAvailable = false
      rw [hcw]
      exact hPom
    have hcidc : truthy P.client_id = true →
        (logCall (emit stc msgSwitchingBack)
          ApiCall.getProjects).cfg.client_id.isSome = true := by
      intro h
      show stc.cfg.client_id.isSome = true
      rw [hccl]
      exact hcid h
    obtain ⟨st', happly, hw', hprev', hcl', hproj', htask', hname', hstale',
      hdesc'⟩ :=
      switch_apply_spec_idle P
        (logCall (emit stc msgSwitchingBack) ApiCall.getProjects)
        hAc hPomc hdesc hcidc
    have hworldY : (logCall (emit stc msgSwitchingBack)
        ApiCall.getProjects).world = st.world := by
      show stc.world = st.world
      exact hcw
    refine ⟨st', ?_, ?_, ?_, ?_, ?_, ?_, ?_, ?_, ?_⟩
    · simp only [switch_to_previous_task]
      rw [hprev]
      simp only []
      rw [hcx]
      simp only []
      rw [if_neg hincomplete, if_pos hp]
      have hnone : ((logCall (emit stc msgSwitchingBack)
          ApiCall.getProjects).world.findProject
            (P.project_id.getD "")).isNone = false := by
        rw [hworldY, hpr]
        rfl
      rw [hnone]
      simp only [Bool.false_eq_true, if_false]
      rw [happly]
    · rw [hw', hworldY]
    · rw [hprev']
      show stc.cfg.previous_task = _
      rw [hcprev, hprev]
    · rw [hcl']
      show (if truthy P.client_id then some (P.client_id.getD "")
        else stc.cfg.client_id) = _
      rw [hccl]
    · rw [hproj']
      show (if truthy P.project_id then some (P.project_id.getD "")
        else stc.cfg.project_id) = _
      rw [hcproj]
    · rw [htask', hworldY]
    · rw [hname', hworldY]
    · rw [hworldY] at hstale'
      exact hstale'
    · exact hdesc'
  · have hAc : (emit stc msgSwitchingBack).world.activeEntry = none := by
      show stc.world.activeEntry = none
      rw [hcw]
      exact hA
    have hPomc :
        (emit stc msgSwitchingBack).world.pomodoroAvailable = false := by
      show stc.world.pomodoroAvailable = false
      rw [hcw]
      exact hPom
    have hcidc : truthy P.client_id = true →
        (emit stc msgSwitchingBack).cfg.client_id.isSome = true := by
      intro h
      show stc.cfg.client_id.isSome = true
      rw [hccl]
      exact hcid h
    obtain ⟨st', happly, hw', hprev', hcl', hproj', htask', hname', hstale',
      hdesc'⟩ :=
      switch_apply_spec_idle P (emit stc msgSwitchingBack) hAc hPomc hdesc
        hcidc
    have hworldY : (emit stc msgSwitchingBack).world = st.world := by
      show stc.world = st.world
      exact hcw
    refine ⟨st', ?_, ?_, ?_, ?_, ?_, ?_, ?_, ?_, ?_⟩
    · simp only [switch_to_previous_task]
      rw [hprev]
      simp only []
      rw [hcx]
      simp only []
      rw [if_neg hincomplete, if_neg hp]
      rw [happly]
    · rw [hw', hworldY]
    · rw [hprev']
      show stc.cfg.previous_task = _
      rw [hcprev, hprev]
    · rw [hcl']
      show (if truthy P.client_id then some (P.client_id.getD "")
        else stc.cfg.client_id) = _
      rw [hccl]
    · rw [hproj']
      show (if truthy P.project_id then some (P.project_id.getD "")
        else stc.cfg.project_id) = _
      rw [hcproj]
    · rw [htask', hworldY]
    · rw [hname', hworldY]
    · rw [hworldY] at hstale'
      exact hstale'
    · exact hdesc'

/-! ### Auxiliary facts -/

theorem truthy_some_getD {o : Option String} (h : truthy o = true) :
    some (o.getD "") = o := by
  cases o with
  | none => simp [truthy] at h
  | some s => rfl

theorem descCandidate_eq_some (pid tid : String) (e : TimeEntry)
    (d : String) :
    descCandidate pid tid e = some d ↔
      (e.projectId = some pid ∧ (e.taskId = some tid ∨ e.taskId = none) ∧
        (e.description.getD "").trim = d ∧ d ≠ "") := by
  simp only [descCandidate]
  by_cases h : (e.projectId == some pid &&
      !((e.description.getD "").trim == "") &&
      (e.taskId == some tid || e.taskId == none)) = true
  · rw [if_pos h]
    simp only [Bool.and_eq_true, Bool.or_eq_true, beq_iff_eq,
      Bool.not_eq_true', beq_eq_false_iff_ne] at h
    obtain ⟨⟨h1, h2⟩, h3⟩ := h
    constructor
    · intro heq
      have hd := Option.some.inj heq
      exact ⟨h1, h3, hd, by rw [← hd]; exact h2⟩
    · rintro ⟨_, _, h3', _⟩
      exact congrArg some h3'
  · rw [if_neg h]
    constructor
    · intro heq
      cases heq
    · rintro ⟨h1, h2, h3, h4⟩
      exfalso
      apply h
      simp only [Bool.and_eq_true, Bool.or_eq_true, beq_iff_eq,
        Bool.not_eq_true', beq_eq_false_iff_ne]
      exact ⟨⟨h1, by rw [h3]; exact h4⟩, h2⟩

/-! ### Characterization of `set_current_task_and_description` and of the
switch on a tracking world (remote entry active, break-timer unavailable).
The stop-timer step stops the running entry and the resume step restarts
Clockify through `start_tracking`, so the final remote state carries the
newly applied selection. -/

theorem truthy_getD_ne {o : Option String} (h : truthy o = true) :
    o.getD "" ≠ "" := by
  cases o with
  | none => simp [truthy] at h
  | some s => simpa [truthy] using h

theorem startTracking_create_spec (st : St)
    (hid : st.world.nextEntryId ≠ "") :
    ∃ st', startTracking_create st = (Except.ok true, st') ∧
      st'.world = { st.world with activeEntry := some ⟨st.world.nextEntryId, some (st.cfg.description.getD ""), st.cfg.project_id, st.cfg.task_id⟩ } ∧
      st'.cfg.previous_task = st.cfg.previous_task ∧
      st'.cfg.client_id = st.cfg.client_id ∧
      st'.cfg.project_id = st.cfg.project_id ∧
      st'.cfg.task_id = st.cfg.task_id ∧
      st'.cfg.task_name = st.cfg.task_name ∧
      st'.cfg.description = st.cfg.description ∧
      (∃ t, st'.out = st.out ++ t) := by
  have hbeq : (st.world.nextEntryId == "") = false :=
    beq_eq_false_iff_ne.mpr hid
  refine ⟨(startTracking_create st).2, ?_, ?_, ?_, ?_, ?_, ?_, ?_, ?_,
    ⟨[msgStarting, msgStarted], ?_⟩⟩
  all_goals simp [startTracking_create, hbeq, emit, logCall,
    ClockifyConfig.project_id, ClockifyConfig.task_id,
    ClockifyConfig.task_name, ClockifyConfig.description,
    ClockifyConfig.get, ClockifyConfig.set_current_entry_id,
    ClockifyConfig.set_state, ClockifyConfig.save_state]

theorem start_tracking_success_spec (st : St)
    (hA : st.world.activeEntry = none)
    (hPom : st.world.pomodoroAvailable = false)
    (hdesc : truthy st.cfg.description = true)
    (hproj : truthy st.cfg.project_id = true)
    (htask : truthy st.cfg.task_id = true →
      ((st.world.tasksOf (st.cfg.project_id.getD "")).any
        (fun t => t.id == st.cfg.task_id.getD "")) = true)
    (hid : st.world.nextEntryId ≠ "") :
    ∃ st', start_tracking none none none st = (Except.ok true, st') ∧
      st'.world = { st.world with activeEntry := some ⟨st.world.nextEntryId, some (st.cfg.description.getD ""), st.cfg.project_id, st.cfg.task_id⟩ } ∧
      st'.cfg.previous_task = st.cfg.previous_task ∧
      st'.cfg.client_id = st.cfg.client_id ∧
      st'.cfg.project_id = st.cfg.project_id ∧
      st'.cfg.task_id = st.cfg.task_id ∧
      st'.cfg.task_name = st.cfg.task_name ∧
      st'.cfg.description = st.cfg.description ∧
      (∃ t, st'.out = st.out ++ t) := by
  have h1 : start_tracking none none none st =
      startTracking_descStep none none none
        (logCall st ApiCall.getCurrentTimeEntry) := by
    simp [start_tracking, hA]
  have h2 : startTracking_descStep none none none
      (logCall st ApiCall.getCurrentTimeEntry) =
      startTracking_projStep none none
        (logCall st ApiCall.getCurrentTimeEntry) := by
    simp [startTracking_descStep, hdesc]
  have h3 : startTracking_projStep none none
      (logCall st ApiCall.getCurrentTimeEntry) =
      startTracking_validateTask
        (logCall st ApiCall.getCurrentTimeEntry) := by
    simp [startTracking_projStep, startTracking_taskArg, hproj]
  by_cases ht : truthy st.cfg.task_id = true
  · have h4 : startTracking_validateTask
        (logCall st ApiCall.getCurrentTimeEntry) =
        startTracking_create
          (logCall (logCall st ApiCall.getCurrentTimeEntry)
            (ApiCall.getProjectTasks (st.cfg.project_id.getD ""))) := by
      simp [startTracking_validateTask, ht, htask ht,
        startTracking_pomodoroGuard, hPom]
    obtain ⟨st', hc, hw, hprev, hcl, hpr, hti, htn, hde, hout⟩ :=
      startTracking_create_spec
        (logCall (logCall st ApiCall.getCurrentTimeEntry)
          (ApiCall.getProjectTasks (st.cfg.project_id.getD ""))) hid
    exact ⟨st', by rw [h1, h2, h3, h4]; exact hc, hw, hprev, hcl, hpr, hti,
      htn, hde, hout⟩
  · have h4 : startTracking_validateTask
        (logCall st ApiCall.getCurrentTimeEntry) =
        startTracking_create (logCall st ApiCall.getCurrentTimeEntry) := by
      simp [startTracking_validateTask, ht, startTracking_pomodoroGuard,
        hPom]
    obtain ⟨st', hc, hw, hprev, hcl, hpr, hti, htn, hde, hout⟩ :=
      startTracking_create_spec (logCall st ApiCall.getCurrentTimeEntry) hid
    exact ⟨st', by rw [h1, h2, h3, h4]; exact hc, hw, hprev, hcl, hpr, hti,
      htn, hde, hout⟩

theorem setCurrent_stopTimer_tracking (st : St) (e : TimeEntry)
    (hA : st.world.activeEntry = some e)
    (hPom : st.world.pomodoroAvailable = false) :
    ∃ st2, setCurrent_stopTimer true st = (true, false, st2) ∧
      st2.world = { st.world with activeEntry := none } ∧
      st2.cfg.previous_task = st.cfg.previous_task ∧
      st2.cfg.client_id = st.cfg.client_id ∧
      st2.cfg.project_id = st.cfg.project_id ∧
      st2.cfg.task_id = st.cfg.task_id ∧
      st2.cfg.task_name = st.cfg.task_name ∧
      st2.cfg.description = st.cfg.description ∧
      (∃ t, st2.out = st.out ++ t) := by
  by_cases hbe : (e.id == "") = true
  · refine ⟨(setCurrent_stopTimer true st).2.2, ?_, ?_, ?_, ?_, ?_, ?_,
      ?_, ?_, ⟨[msgStoppingDueToChange, msgStopping, msgStopFailed], ?_⟩⟩
    all_goals simp [setCurrent_stopTimer, stop_tracking, hA, hPom, hbe,
      emit, logCall, ClockifyConfig.project_id, ClockifyConfig.task_id,
      ClockifyConfig.task_name, ClockifyConfig.description,
      ClockifyConfig.get, ClockifyConfig.set_current_entry_id,
      ClockifyConfig.set_state, ClockifyConfig.save_state]
  · refine ⟨(setCurrent_stopTimer true st).2.2, ?_, ?_, ?_, ?_, ?_, ?_,
      ?_, ?_, ⟨[msgStoppingDueToChange, msgStopping, msgStopped], ?_⟩⟩
    all_goals simp [setCurrent_stopTimer, stop_tracking, hA, hPom, hbe,
      emit, logCall, ClockifyConfig.project_id, ClockifyConfig.task_id,
      ClockifyConfig.task_name, ClockifyConfig.description,
      ClockifyConfig.get, ClockifyConfig.set_current_entry_id,
      ClockifyConfig.set_state, ClockifyConfig.save_state]

theorem set_current_spec_tracking (st : St) (e : TimeEntry)
    (tid tname : Option String) (desc : String) (pid cid : Option String)
    (hA : st.world.activeEntry = some e)
    (hPom : st.world.pomodoroAvailable = false)
    (hdne : desc ≠ "")
    (hpr : truthy pid = true ∨ truthy st.cfg.project_id = true)
    (htk : truthy tid = true → truthy pid = true ∧
      ((st.world.tasksOf (pid.getD "")).any
        (fun t => t.id == tid.getD "")) = true)
    (hid : st.world.nextEntryId ≠ "")
    (hC : truthy cid = true → st.cfg.client_id.isSome = true) :
    ∃ st', set_current_task_and_description tid tname desc pid cid true false
        st = (Except.ok (), st') ∧
      st'.cfg.previous_task = st.cfg.previous_task ∧
      st'.cfg.client_id =
        (if truthy cid then some (cid.getD "") else st.cfg.client_id) ∧
      st'.cfg.project_id =
        (if truthy pid then some (pid.getD "") else st.cfg.project_id) ∧
      st'.cfg.task_id = (if truthy tid then some (tid.getD "") else none) ∧
      st'.cfg.task_name = tname ∧
      st'.cfg.description = some desc ∧
      st'.world = { st.world with activeEntry := some ⟨st.world.nextEntryId, some desc, (if truthy pid then some (pid.getD "") else st.cfg.project_id), (if truthy tid then some (tid.getD "") else none)⟩ } ∧
      (∃ t, st'.out = st.out ++ t) := by
  have hsnap : setCurrent_snapshot false st = (Except.ok (), st) := by
    simp [setCurrent_snapshot]
  obtain ⟨st2, hstop, hw2, hprev2, hcl2, hpr2, hti2, htn2, hde2, o1,
    hout2⟩ := setCurrent_stopTimer_tracking st e hA hPom
  have hC2 : truthy cid = true → st2.cfg.client_id.isSome = true := by
    intro h
    rw [hcl2]
    exact hC h
  obtain ⟨st3, hcli, hw3, hca3, hout3, hprev3, hproj3, htask3, hname3,
    hdesc3, hlast3, hclient3⟩ := setCurrent_client_ok cid st2 hC2
  obtain ⟨pw, pprev, pcl, ptask, pname, pdesc, plast, pproj, o2, pout⟩ :=
    setCurrent_project_spec pid st3
  obtain ⟨aw, aprev, acl, aproj, alast, atask, aname, adesc, o3, aout⟩ :=
    setCurrent_apply_spec tid tname desc (setCurrent_project pid st3)
  have hwy : (setCurrent_apply tid tname desc
      (setCurrent_project pid st3)).world =
      { st.world with activeEntry := none } := by
    rw [aw, pw, hw3, hw2]
  have hA4 : (emit (setCurrent_apply tid tname desc
      (setCurrent_project pid st3)) msgResuming).world.activeEntry =
      none := by
    show (setCurrent_apply tid tname desc
      (setCurrent_project pid st3)).world.activeEntry = none
    rw [hwy]
  have hPom4 : (emit (setCurrent_apply tid tname desc
      (setCurrent_project pid st3)) msgResuming).world.pomodoroAvailable =
      false := by
    show (setCurrent_apply tid tname desc
      (setCurrent_project pid st3)).world.pomodoroAvailable = false
    rw [hwy]
    exact hPom
  have hdesc4 : truthy (emit (setCurrent_apply tid tname desc
      (setCurrent_project pid st3)) msgResuming).cfg.description = true := by
    show truthy (setCurrent_apply tid tname desc
      (setCurrent_project pid st3)).cfg.description = true
    rw [adesc]
    simp [hdne]
  have hproj4 : truthy (emit (setCurrent_apply tid tname desc
      (setCurrent_project pid st3)) msgResuming).cfg.project_id = true := by
    show truthy (setCurrent_apply tid tname desc
      (setCurrent_project pid st3)).cfg.project_id = true
    rw [aproj, pproj, hproj3, hpr2]
    by_cases hp : truthy pid = true
    · rw [if_pos hp, truthy_some_getD hp]
      exact hp
    · rw [if_neg hp]
      rcases hpr with h | h
      · exact absurd h hp
      · exact h
  have htask4 : truthy (emit (setCurrent_apply tid tname desc
      (setCurrent_project pid st3)) msgResuming).cfg.task_id = true →
      (((emit (setCurrent_apply tid tname desc
        (setCurrent_project pid st3)) msgResuming).world.tasksOf
          ((emit (setCurrent_apply tid tname desc
            (setCurrent_project pid st3))
              msgResuming).cfg.project_id.getD "")).any
        (fun t => t.id == (emit (setCurrent_apply tid tname desc
          (setCurrent_project pid st3))
            msgResuming).cfg.task_id.getD "")) = true := by
    show truthy (setCurrent_apply tid tname desc
        (setCurrent_project pid st3)).cfg.task_id = true →
      (((setCurrent_apply tid tname desc
        (setCurrent_project pid st3)).world.tasksOf
          ((setCurrent_apply tid tname desc
            (setCurrent_project pid st3)).cfg.project_id.getD "")).any
        (fun t => t.id == (setCurrent_apply tid tname desc
          (setCurrent_project pid st3)).cfg.task_id.getD "")) = true
    rw [atask, aproj, pproj, hproj3, hpr2, aw, pw, hw3, hw2]
    intro h
    by_cases hti : truthy tid = true
    · obtain ⟨hp, hany⟩ := htk hti
      rw [if_pos hti, if_pos hp]
      exact hany
    · rw [if_neg hti] at h
      simp [truthy] at h
  have hid4 : (emit (setCurrent_apply tid tname desc
      (setCurrent_project pid st3)) msgResuming).world.nextEntryId ≠ "" := by
    show (setCurrent_apply tid tname desc
      (setCurrent_project pid st3)).world.nextEntryId ≠ ""
    rw [hwy]
    exact hid
  obtain ⟨stR, hrun, hrw, hrprev, hrcl, hrproj, hrtask, hrname, hrdesc,
    o4, ho4⟩ :=
    start_tracking_success_spec
      (emit (setCurrent_apply tid tname desc (setCurrent_project pid st3))
        msgResuming) hA4 hPom4 hdesc4 hproj4 htask4 hid4
  have hres : setCurrent_resume true true false
      (setCurrent_apply tid tname desc (setCurrent_project pid st3)) =
      stR := by
    have hcond : (true && (true || false)) = true := rfl
    simp only [setCurrent_resume, hcond, eq_self_iff_true, if_true,
      Bool.false_and, Bool.false_eq_true, if_false]
    rw [hrun]
  refine ⟨stR, ?_, ?_, ?_, ?_, ?_, ?_, ?_, ?_, ?_⟩
  · simp only [set_current_task_and_description, hsnap, hstop, hcli, hres]
  · rw [hrprev]
    show (setCurrent_apply tid tname desc
      (setCurrent_project pid st3)).cfg.previous_task =
      st.cfg.previous_task
    rw [aprev, pprev, hprev3, hprev2]
  · rw [hrcl]
    show (setCurrent_apply tid tname desc
      (setCurrent_project pid st3)).cfg.client_id = _
    rw [acl, pcl, hclient3, hcl2]
  · rw [hrproj]
    show (setCurrent_apply tid tname desc
      (setCurrent_project pid st3)).cfg.project_id = _
    rw [aproj, pproj, hproj3, hpr2]
  · rw [hrtask]
    show (setCurrent_apply tid tname desc
      (setCurrent_project pid st3)).cfg.task_id = _
    rw [atask]
  · rw [hrname]
    show (setCurrent_apply tid tname desc
      (setCurrent_project pid st3)).cfg.task_name = _
    rw [aname]
  · rw [hrdesc]
    show (setCurrent_apply tid tname desc
      (setCurrent_project pid st3)).cfg.description = _
    rw [adesc]
  · rw [hrw]
    have e1 : (emit (setCurrent_apply tid tname desc
        (setCurrent_project pid st3)) msgResuming).world =
        { st.world with activeEntry := none } := hwy
    have e2 : (emit (setCurrent_apply tid tname desc
        (setCurrent_project pid st3)) msgResuming).cfg.description =
        some desc := adesc
    have e3 : (emit (setCurrent_apply tid tname desc
        (setCurrent_project pid st3)) msgResuming).cfg.project_id =
        (if truthy pid then some (pid.getD "") else st.cfg.project_id) := by
      show (setCurrent_apply tid tname desc
        (setCurrent_project pid st3)).cfg.project_id = _
      rw [aproj, pproj, hproj3, hpr2]
    have e4 : (emit (setCurrent_apply tid tname desc
        (setCurrent_project pid st3)) msgResuming).cfg.task_id =
        (if truthy tid then some (tid.getD "") else none) := atask
    rw [e1, e2, e3, e4]
    rfl
  · refine ⟨o1 ++ (o2 ++ (o3 ++ ([msgResuming] ++ o4))), ?_⟩
    rw [ho4]
    show ((setCurrent_apply tid tname desc
      (setCurrent_project pid st3)).out ++ [msgResuming]) ++ o4 = _
    rw [aout, pout, hout3, hout2]
    simp

/-- The canonical selection captured from a remote active entry
(src/modules/task_manager_new.py lines 626-659): description, project and
task ids come from the entry itself, the task name from a remote task-list
lookup, and the client id from the project record (empty when the project
has no client). -/
def captureLive (w : World) (e : TimeEntry) : Selection :=
  ⟨(if truthy e.projectId then
      (w.findProject (e.projectId.getD "")).bind Project.clientId
    else none),
    e.projectId, e.taskId,
    (if truthy e.taskId && truthy e.projectId then
      ((w.tasksOf (e.projectId.getD "")).find?
        (fun t => t.id == e.taskId.getD "")).map Task.name
    else none),
    e.description⟩

theorem switch_capture_live (st : St) (e : TimeEntry)
    (hA : st.world.activeEntry = some e) :
    ∃ stc, switch_capture st = (Except.ok (), stc) ∧
      stc.world = st.world ∧
      stc.cfg.client_id = st.cfg.client_id ∧
      stc.cfg.project_id = st.cfg.project_id ∧
      stc.cfg.task_id = st.cfg.task_id ∧
      stc.cfg.task_name = st.cfg.task_name ∧
      stc.cfg.description = st.cfg.description ∧
      stc.cfg.last_stop_time = st.cfg.last_stop_time ∧
      stc.cfg.previous_task = some (captureLive st.world e) ∧
      (∃ t, stc.out = st.out ++ t) := by
  by_cases h1 : (truthy e.taskId && truthy e.projectId) = true
  · have h2 : truthy e.projectId = true := (Bool.and_eq_true_iff.mp h1).2
    have h3 : truthy e.taskId = true := (Bool.and_eq_true_iff.mp h1).1
    refine ⟨(switch_capture st).2, ?_, ?_, ?_, ?_, ?_, ?_, ?_, ?_, ?_,
      ⟨[msgCapturedLive], ?_⟩⟩
    all_goals simp [switch_capture, captureLive, hA, h2, h3, emit, logCall]
  · by_cases h2 : truthy e.projectId = true
    · have h3 : truthy e.taskId = false := by
        revert h1
        rw [h2]
        cases truthy e.taskId <;> simp
      refine ⟨(switch_capture st).2, ?_, ?_, ?_, ?_, ?_, ?_, ?_, ?_, ?_,
        ⟨[msgCapturedLive], ?_⟩⟩
      all_goals simp [switch_capture, captureLive, hA, h2, h3, emit,
        logCall]
    · have h2f : truthy e.projectId = false := by
        revert h2
        cases truthy e.projectId <;> simp
      refine ⟨(switch_capture st).2, ?_, ?_, ?_, ?_, ?_, ?_, ?_, ?_, ?_,
        ⟨[msgCapturedLive], ?_⟩⟩
      all_goals simp [switch_capture, captureLive, hA, h2f, emit, logCall]

theorem switch_apply_spec_live (P : Selection) (st : St) (e : TimeEntry)
    (hA : st.world.activeEntry = some e)
    (hPom : st.world.pomodoroAvailable = false)
    (hdesc : truthy P.description = true)
    (hRproj : truthy P.project_id = true ∨ truthy st.cfg.project_id = true)
    (hPtask : truthy P.task_id = true → truthy P.project_id = true ∧
      ((st.world.tasksOf (P.project_id.getD "")).any
        (fun t => t.id == P.task_id.getD "")) = true)
    (hid : st.world.nextEntryId ≠ "")
    (hcid : truthy P.client_id = true → st.cfg.client_id.isSome = true) :
    ∃ st', switch_apply P st = (Except.ok true, st') ∧
      st'.cfg.previous_task = st.cfg.previous_task ∧
      st'.cfg.client_id =
        (if truthy P.client_id then some (P.client_id.getD "")
          else st.cfg.client_id) ∧
      st'.cfg.project_id =
        (if truthy P.project_id then some (P.project_id.getD "")
          else st.cfg.project_id) ∧
      st'.cfg.task_id =
        (if truthy P.task_id then some (P.task_id.getD "") else none) ∧
      st'.cfg.task_name = P.task_name ∧
      st'.cfg.description = some (P.description.getD "") ∧
      st'.world = { st.world with activeEntry := some ⟨st.world.nextEntryId, some (P.description.getD ""), (if truthy P.project_id then some (P.project_id.getD "") else st.cfg.project_id), (if truthy P.task_id then some (P.task_id.getD "") else none)⟩ } := by
  have hdne : P.description.getD "" ≠ "" := truthy_getD_ne hdesc
  by_cases hr : (truthy P.project_id && truthy P.task_id) = true
  · have hPt : truthy P.task_id = true := (Bool.and_eq_true_iff.mp hr).2
    obtain ⟨hPp, hany⟩ := hPtask hPt
    obtain ⟨st', heq, hprev, hcl, hproj, htask, hname, hdsc, hw, o,
      hout⟩ :=
      set_current_spec_tracking
        (logCall st (ApiCall.getProjectTasks (P.project_id.getD ""))) e
        P.task_id P.task_name (P.description.getD "") P.project_id
        P.client_id hA hPom hdne (Or.inl hPp) hPtask hid hcid
    refine ⟨st', ?_, hprev, hcl, hproj, htask, hname, hdsc, hw⟩
    · simp only [switch_apply, world_logCall]
      rw [if_pos hdesc, if_pos hr, if_pos hany]
      simp only []
      rw [heq]
  · have hrf : (truthy P.project_id && truthy P.task_id) = false := by
      revert hr
      cases (truthy P.project_id && truthy P.task_id) <;> simp
    obtain ⟨st', heq, hprev, hcl, hproj, htask, hname, hdsc, hw, o,
      hout⟩ :=
      set_current_spec_tracking st e P.task_id P.task_name
        (P.description.getD "") P.project_id P.client_id hA hPom hdne
        hRproj hPtask hid hcid
    refine ⟨st', ?_, hprev, hcl, hproj, htask, hname, hdsc, hw⟩
    · simp only [switch_apply]
      rw [if_pos hdesc, if_neg (by simp [hrf])]
      simp only []
      rw [heq]

theorem switch_spec_live (st : St) (e : TimeEntry) (P : Selection)
    (hprev : st.cfg.previous_task = some P)
    (hA : st.world.activeEntry = some e)
    (hPom : st.world.pomodoroAvailable = false)
    (hPdesc : truthy P.description = true)
    (hPproj : truthy P.project_id = true →
      (st.world.findProject (P.project_id.getD "")).isSome = true)
    (hRproj : truthy P.project_id = true ∨ truthy st.cfg.project_id = true)
    (hPtask : truthy P.task_id = true → truthy P.project_id = true ∧
      ((st.world.tasksOf (P.project_id.getD "")).any
        (fun t => t.id == P.task_id.getD "")) = true)
    (hid : st.world.nextEntryId ≠ "")
    (hcid : truthy P.client_id = true → st.cfg.client_id.isSome = true) :
    ∃ st', switch_to_previous_task st = (Except.ok true, st') ∧
      st'.cfg.previous_task = some (captureLive st.world e) ∧
      st'.cfg.client_id =
        (if truthy P.client_id then some (P.client_id.getD "")
          else st.cfg.client_id) ∧
      st'.cfg.project_id =
        (if truthy P.project_id then some (P.project_id.getD "")
          else st.cfg.project_id) ∧
      st'.cfg.task_id =
        (if truthy P.task_id then some (P.task_id.getD "") else none) ∧
      st'.cfg.task_name = P.task_name ∧
      st'.cfg.description = some (P.description.getD "") ∧
      st'.world = { st.world with activeEntry := some ⟨st.world.nextEntryId, some (P.description.getD ""), (if truthy P.project_id then some (P.project_id.getD "") else st.cfg.project_id), (if truthy P.task_id then some (P.task_id.getD "") else none)⟩ } := by
  obtain ⟨stc, hcx, hcw, hccl, hcproj, _, _, _, _, hcprev, _, _⟩ :=
    switch_capture_live st e hA
  have hincomplete :
      ¬((!truthy P.task_id && !truthy P.task_name &&
        !truthy P.description) = true) := by
    simp [hPdesc]
  by_cases hp : truthy P.project_id = true
  · obtain ⟨pr, hpr⟩ := Option.isSome_iff_exists.mp (hPproj hp)
    have hAz : (logCall (emit stc msgSwitchingBack)
        ApiCall.getProjects).world.activeEntry = some e := by
      show stc.world.activeEntry = some e
      rw [hcw]
      exact hA
    have hPomz : (logCall (emit stc msgSwitchingBack)
        ApiCall.getProjects).world.pomodoroAvailable = false := by
      show stc.world.pomodoroAvailable = false
      rw [hcw]
      exact hPom
    have hRz : truthy P.project_id = true ∨
        truthy (logCall (emit stc msgSwitchingBack)
          ApiCall.getProjects).cfg.project_id = true := Or.inl hp
    have hTz : truthy P.task_id = true → truthy P.project_id = true ∧
        (((logCall (emit stc msgSwitchingBack)
          ApiCall.getProjects).world.tasksOf (P.project_id.getD "")).any
          (fun t => t.id == P.task_id.getD "")) = true := by
      intro h
      obtain ⟨ha, hb⟩ := hPtask h
      refine ⟨ha, ?_⟩
      show ((stc.world.tasksOf (P.project_id.getD "")).any
        (fun t => t.id == P.task_id.getD "")) = true
      rw [hcw]
      exact hb
    have hidz : (logCall (emit stc msgSwitchingBack)
        ApiCall.getProjects).world.nextEntryId ≠ "" := by
      show stc.world.nextEntryId ≠ ""
      rw [hcw]
      exact hid
    have hcz : truthy P.client_id = true →
        (logCall (emit stc msgSwitchingBack)
          ApiCall.getProjects).cfg.client_id.isSome = true := by
      intro h
      show stc.cfg.client_id.isSome = true
      rw [hccl]
      exact hcid h
    obtain ⟨st', happly, hprev', hcl', hproj', htask', hname', hdesc',
      hw'⟩ :=
      switch_apply_spec_live P
        (logCall (emit stc msgSwitchingBack) ApiCall.getProjects) e
        hAz hPomz hPdesc hRz hTz hidz hcz
    refine ⟨st', ?_, ?_, ?_, ?_, ?_, ?_, ?_, ?_⟩
    · simp only [switch_to_previous_task]
      rw [hprev]
      simp only []
      rw [hcx]
      simp only []
      rw [if_neg hincomplete, if_pos hp]
      have hnone : ((logCall (emit stc msgSwitchingBack)
          ApiCall.getProjects).world.findProject
            (P.project_id.getD "")).isNone = false := by
        show (stc.world.findProject (P.project_id.getD "")).isNone = false
        rw [hcw, hpr]
        rfl
      rw [hnone]
      simp only [Bool.false_eq_true, if_false]
      rw [happly]
    · rw [hprev']
      show stc.cfg.previous_task = _
      rw [hcprev]
    · rw [hcl']
      show (if truthy P.client_id then some (P.client_id.getD "")
        else stc.cfg.client_id) = _
      rw [hccl]
    · rw [hproj']
      show (if truthy P.project_id then some (P.project_id.getD "")
        else stc.cfg.project_id) = _
      rw [hcproj]
    · exact htask'
    · exact hname'
    · exact hdesc'
    · rw [hw']
      show ({ stc.world with activeEntry := some ⟨stc.world.nextEntryId, some (P.description.getD ""), (if truthy P.project_id then some (P.project_id.getD "") else stc.cfg.project_id), (if truthy P.task_id then some (P.task_id.getD "") else none)⟩ }) = _
      rw [hcw, hcproj]
  · have hAz : (emit stc msgSwitchingBack).world.activeEntry = some e := by
      show stc.world.activeEntry = some e
      rw [hcw]
      exact hA
    have hPomz :
        (emit stc msgSwitchingBack).world.pomodoroAvailable = false := by
      show stc.world.pomodoroAvailable = false
      rw [hcw]
      exact hPom
    have hRz : truthy P.project_id = true ∨
        truthy (emit stc msgSwitchingBack).cfg.project_id = true := by
      rcases hRproj with h | h
      · exact Or.inl h
      · right
        show truthy stc.cfg.project_id = true
        rw [hcproj]
        exact h
    have hTz : truthy P.task_id = true → truthy P.project_id = true ∧
        (((emit stc msgSwitchingBack).world.tasksOf
          (P.project_id.getD "")).any
          (fun t => t.id == P.task_id.getD "")) = true := by
      intro h
      obtain ⟨ha, hb⟩ := hPtask h
      refine ⟨ha, ?_⟩
      show ((stc.world.tasksOf (P.project_id.getD "")).any
        (fun t => t.id == P.task_id.getD "")) = true
      rw [hcw]
      exact hb
    have hidz : (emit stc msgSwitchingBack).world.nextEntryId ≠ "" := by
      show stc.world.nextEntryId ≠ ""
      rw [hcw]
      exact hid
    have hcz : truthy P.client_id = true →
        (emit stc msgSwitchingBack).cfg.client_id.isSome = true := by
      intro h
      show stc.cfg.client_id.isSome = true
      rw [hccl]
      exact hcid h
    obtain ⟨st', happly, hprev', hcl', hproj', htask', hname', hdesc',
      hw'⟩ :=
      switch_apply_spec_live P (emit stc msgSwitchingBack) e
        hAz hPomz hPdesc hRz hTz hidz hcz
    refine ⟨st', ?_, ?_, ?_, ?_, ?_, ?_, ?_, ?_⟩
    · simp only [switch_to_previous_task]
      rw [hprev]
      simp only []
      rw [hcx]
      simp only []
      rw [if_neg hincomplete, if_neg hp]
      rw [happly]
    · rw [hprev']
      show stc.cfg.previous_task = _
      rw [hcprev]
    · rw [hcl']
      show (if truthy P.client_id then some (P.client_id.getD "")
        else stc.cfg.client_id) = _
      rw [hccl]
    · rw [hproj']
      show (if truthy P.project_id then some (P.project_id.getD "")
        else stc.cfg.project_id) = _
      rw [hcproj]
    · exact htask'
    · exact hname'
    · exact hdesc'
    · rw [hw']
      show ({ stc.world with activeEntry := some ⟨stc.world.nextEntryId, some (P.description.getD ""), (if truthy P.project_id then some (P.project_id.getD "") else stc.cfg.project_id), (if truthy P.task_id then some (P.task_id.getD "") else none)⟩ }) = _
      rw [hcw, hcproj]

/-! ### Concrete fixtures used by the claim theorems -/

/-- An idle world: no active entry, no break-timer, one project `p`. -/
def idleWorld : World :=
  { activeEntry := none
    clients := [⟨"c1", "Acme"⟩]
    projects := [⟨"p", "Proj", none⟩]
    tasks := []
    pomodoroAvailable := false
    pomodoroState := none
    now := 0
    nextEntryId := "e9" }

/-- A configuration document with credentials and a description. -/
def baseDoc : Doc :=
  [("token", JVal.jstr "t"), ("workspace_id", JVal.jstr "w"),
    ("description", JVal.jstr "work")]

/-- C1 counterexample state: no timer running, persisted selection has no
project, previous selection names project `p` with description `prev`, and
the `client_id` attribute was assigned earlier in the process. -/
def c1CexSt : St :=
  ⟨{ ClockifyConfig.load baseDoc [] with
      client_id := some "c0"
      previous_task := some ⟨none, some "p", none, none, some "prev"⟩ },
    idleWorld, [], [], []⟩

/-- C3 counterexample state: fresh configuration without any description. -/
def c3CexSt : St := ⟨ClockifyConfig.load [] [], idleWorld, [], [], []⟩

/-- C4 fixture: a running entry to stop. -/
def c4StopSt : St :=
  ⟨ClockifyConfig.load baseDoc [],
    { idleWorld with
        activeEntry := some ⟨"e1", some "work", some "p", none⟩
        now := 100 },
    [], [], []⟩

/-- C4 fixture: idle state for the client update and the selection change. -/
def c4IdleSt : St := ⟨ClockifyConfig.load baseDoc [], idleWorld, [], [], []⟩

/-- C4 fixture: the same process after `client select` recorded `c1`. -/
def c4AfterClientSt : St := (set_current_client "c1" c4IdleSt).2

/-- C4 fixture: the same process after a selection change snapshotted the
previous selection. -/
def c4AfterSelectSt : St :=
  (set_current_task_and_description (some "t1") (some "T") "newdesc" none
    none true true c4AfterClientSt).2

/-- C7 witness fixture: a running entry. -/
def c7St : St :=
  ⟨ClockifyConfig.load baseDoc [],
    { idleWorld with activeEntry := some ⟨"e1", some "work", some "p", none⟩ },
    [], [], []⟩

/-! ### Claim theorems -/

/-- C2: in any process whose `ClockifyConfig` was freshly constructed from
the on-disk documents and where no previous selection has been recorded,
`switch_to_previous_task` does NOT print the no-history message and return
`False`: its very first read of `config.previous_task` raises
`AttributeError`, because `ClockifyConfig` defines no such property and the
attribute only exists after an in-process assignment.  This holds for every
pair of on-disk documents and every world. -/
theorem switch_fresh_process_raises_attributeError (dC dS : Doc) (w : World) :
    (switch_to_previous_task
        ⟨ClockifyConfig.load dC dS, w, [], [], []⟩).1 =
      Except.error (PyErr.attributeError "previous_task") := rfl

/-- C10: every construction of `ClientManager` in the program —
`setup_components` in src/app.py line 175 and the client-selection branches
of `ProjectManager.select_project_interactive` — passes three positional
arguments `(api, config, cache)` to an `__init__` that declares only
`(api, config)`, so the construction raises `TypeError`; in
`setup_components` the surrounding `try` catches only `ClockifyAPIError`,
so the `TypeError` escapes. -/
theorem clientManager_construction_raises_typeError :
    setup_components =
        Except.error
          (PyErr.typeError
            "ClientManager.__init__ positional argument count") ∧
      select_project_interactive_clientManager =
        Except.error
          (PyErr.typeError
            "ClientManager.__init__ positional argument count") :=
  ⟨rfl, rfl⟩

/-- C4: the last-stop timestamp, the `client_id` of a client update and the
previous-selection snapshot are all recorded only as in-memory attributes of
the live `ClockifyConfig` object: after a `stop_tracking`, a
`set_current_client` and a selection change, neither on-disk document
contains the corresponding key, and a fresh `ClockifyConfig` (a new process)
raises `AttributeError` on each read instead of returning the recorded
value.  This refutes the claimed durability; the in-memory recordings
themselves are verified as the first conjuncts. -/
theorem selection_and_stop_state_not_persisted :
    (stop_tracking c4StopSt).1 = Except.ok true ∧
      (stop_tracking c4StopSt).2.cfg.last_stop_time = some (some 100) ∧
      docGet (stop_tracking c4StopSt).2.cfg.diskConfig "last_stop_time" =
        none ∧
      docGet (stop_tracking c4StopSt).2.cfg.diskState "last_stop_time" =
        none ∧
      (ClockifyConfig.load (stop_tracking c4StopSt).2.cfg.diskConfig
          (stop_tracking c4StopSt).2.cfg.diskState).getattr_last_stop_time =
        Except.error (PyErr.attributeError "last_stop_time") ∧
      (set_current_client "c1" c4IdleSt).1 = true ∧
      (set_current_client "c1" c4IdleSt).2.cfg.client_id = some "c1" ∧
      docGet (set_current_client "c1" c4IdleSt).2.cfg.diskConfig
        "client_id" = none ∧
      (ClockifyConfig.load
          (set_current_client "c1" c4IdleSt).2.cfg.diskConfig
          (set_current_client "c1" c4IdleSt).2.cfg.diskState).getattr_client_id =
        Except.error (PyErr.attributeError "client_id") ∧
      c4AfterSelectSt.cfg.previous_task =
        some ⟨some "c1", none, none, none, some "work"⟩ ∧
      (ClockifyConfig.load c4AfterSelectSt.cfg.diskConfig
          c4AfterSelectSt.cfg.diskState).previous_task = none ∧
      (ClockifyConfig.load c4AfterSelectSt.cfg.diskConfig
          c4AfterSelectSt.cfg.diskState).getattr_previous_task =
        Except.error (PyErr.attributeError "previous_task") := by
  refine ⟨rfl, rfl, rfl, rfl, rfl, rfl, rfl, rfl, rfl, rfl, rfl, rfl⟩

/-- C5: a string is returned by `get_descriptions_for_task` exactly when it
is the stripped, non-empty description of some time entry of the requested
project whose task id matches or is null — the returned list is the set of
distinct such values. -/
theorem get_descriptions_for_task_spec (entries : List TimeEntry)
    (pid tid d : String) :
    d ∈ get_descriptions_for_task entries pid tid ↔
      ∃ e, e ∈ entries ∧ e.projectId = some pid ∧
        (e.taskId = some tid ∨ e.taskId = none) ∧
        (e.description.getD "").trim = d ∧ d ≠ "" := by
  unfold get_descriptions_for_task
  rw [(List.perm_insertionSort _ _).mem_iff, List.mem_dedup,
    List.mem_filterMap]
  constructor
  · rintro ⟨e, he, hc⟩
    obtain ⟨h1, h2, h3, h4⟩ := (descCandidate_eq_some pid tid e d).mp hc
    exact ⟨e, he, h1, h2, h3, h4⟩
  · rintro ⟨e, he, h1, h2, h3, h4⟩
    exact ⟨e, he, (descCandidate_eq_some pid tid e d).mpr ⟨h1, h2, h3, h4⟩⟩

/-- C7: whenever the remote service reports an active time entry,
`start_tracking` detects it through the initial `is_tracking` check, prints
the already-active message, returns `False`, performs no entry-creating
remote request, and leaves the remote active entry untouched. -/
theorem start_tracking_refuses_when_active (st : St)
    (da pa ta : Option String) (e : TimeEntry)
    (hA : st.world.activeEntry = some e) (hcalls : st.calls = []) :
    (start_tracking da pa ta st).1 = Except.ok false ∧
      ApiCall.startTimeEntry ∉ (start_tracking da pa ta st).2.calls ∧
      (start_tracking da pa ta st).2.world.activeEntry = some e := by
  simp [start_tracking, hA, hcalls]

/-- C7 witness: the active-entry refusal at a concrete state. -/
theorem start_tracking_refuses_when_active_witness :
    (c7St.world.activeEntry = some ⟨"e1", some "work", some "p", none⟩ ∧
        c7St.calls = []) ∧
      ((start_tracking none none none c7St).1 = Except.ok false ∧
        ApiCall.startTimeEntry ∉
          (start_tracking none none none c7St).2.calls ∧
        (start_tracking none none none c7St).2.world.activeEntry =
          some ⟨"e1", some "work", some "p", none⟩) :=
  ⟨⟨rfl, rfl⟩,
    start_tracking_refuses_when_active c7St none none none
      ⟨"e1", some "work", some "p", none⟩ rfl rfl⟩

/-- C3 counterexample: with no description available anywhere,
`start_tracking` does fail with the no-description message and return
`False`, but a remote call HAS been made during the invocation — the
active-entry check runs first — refuting "no remote call of any kind is
made". -/
theorem start_tracking_missing_description_remote_call_cex :
    (start_tracking none none none c3CexSt).1 = Except.ok false ∧
      (start_tracking none none none c3CexSt).2.calls =
        [ApiCall.getCurrentTimeEntry] ∧
      (start_tracking none none none c3CexSt).2.calls ≠ [] ∧
      msgNoDescription ∈ (start_tracking none none none c3CexSt).2.out := by
  refine ⟨rfl, rfl, by decide, by decide⟩

/-- C3 amended: when neither an explicit argument nor the persisted
configuration yields a description (or, the description being resolvable,
a project), `start_tracking` prints the corresponding error and returns
`False` and no entry-creating remote call is made — but the invocation is
not free of remote calls: the active-entry check precedes these checks. -/
theorem start_tracking_missing_fields_amended (st : St)
    (da pa ta : Option String)
    (hcalls : st.calls = []) (hA : st.world.activeEntry = none)
    (hmiss : (truthy da = false ∧ truthy st.cfg.description = false) ∨
      ((truthy da = true ∨ truthy st.cfg.description = true) ∧
        truthy pa = false ∧ truthy st.cfg.project_id = false)) :
    (start_tracking da pa ta st).1 = Except.ok false ∧
      ApiCall.startTimeEntry ∉ (start_tracking da pa ta st).2.calls ∧
      (msgNoDescription ∈ (start_tracking da pa ta st).2.out ∨
        msgNoProject ∈ (start_tracking da pa ta st).2.out) := by
  rcases hmiss with ⟨h1, h2⟩ | ⟨hd, h3, h4⟩
  · simp [start_tracking, startTracking_descStep, hA, h1, h2, hcalls]
  · rcases hd with hda | hdc
    · simp [start_tracking, startTracking_descStep, startTracking_projStep,
        hA, hda, h3, h4, hcalls]
    · have hda' : truthy da = false ∨ truthy da = true := by
        cases truthy da
        · exact Or.inl rfl
        · exact Or.inr rfl
      rcases hda' with hda | hda <;>
        simp [start_tracking, startTracking_descStep,
          startTracking_projStep, hA, hda, hdc, h3, h4, hcalls]

/-- C3 amended witness: description present in the configuration, no
project anywhere. -/
theorem start_tracking_missing_fields_amended_witness :
    ((⟨ClockifyConfig.load baseDoc [], idleWorld, [], [], []⟩ : St).calls =
        [] ∧
      (⟨ClockifyConfig.load baseDoc [], idleWorld, [], [], []⟩ :
        St).world.activeEntry = none) ∧
      ((start_tracking none none none
          ⟨ClockifyConfig.load baseDoc [], idleWorld, [], [], []⟩).1 =
        Except.ok false ∧
      ApiCall.startTimeEntry ∉
        (start_tracking none none none
          ⟨ClockifyConfig.load baseDoc [], idleWorld, [], [], []⟩).2.calls ∧
      (msgNoDescription ∈
          (start_tracking none none none
            ⟨ClockifyConfig.load baseDoc [], idleWorld, [], [], []⟩).2.out ∨
        msgNoProject ∈
          (start_tracking none none none
            ⟨ClockifyConfig.load baseDoc [], idleWorld, [], [], []⟩).2.out)) :=
  ⟨⟨rfl, rfl⟩,
    start_tracking_missing_fields_amended
      ⟨ClockifyConfig.load baseDoc [], idleWorld, [], [], []⟩ none none none
      rfl rfl (Or.inr ⟨Or.inr (by decide), rfl, by decide⟩)⟩

/-! ### The stop/start cooldown guard (C8) -/

theorem pomGuard_cooldown (st : St) (t0 : Int)
    (hav : st.world.pomodoroAvailable = true)
    (hstate : st.world.pomodoroState = none ∨
      st.world.pomodoroState = some "null")
    (hlast : st.cfg.last_stop_time = some (some t0))
    (ht0 : t0 ≠ 0)
    (hwin : st.world.now - t0 < 10) :
    startTracking_pomodoroGuard st = (Except.ok false, emit st msgCooldown)
    := by
  have ht0' : (t0 == 0) = false := by simpa using ht0
  rcases hstate with h | h <;>
    simp [startTracking_pomodoroGuard, hav, h, hlast, ht0', hwin]

theorem pomGuard_cooldown_conc (st : St) (t0 : Int)
    (hav : st.world.pomodoroAvailable = true)
    (hstate : st.world.pomodoroState = none ∨
      st.world.pomodoroState = some "null")
    (hlast : st.cfg.last_stop_time = some (some t0))
    (ht0 : t0 ≠ 0)
    (hwin : st.world.now - t0 < 10)
    (hnc : ApiCall.startTimeEntry ∉ st.calls) :
    (startTracking_pomodoroGuard st).1 = Except.ok false ∧
      ApiCall.startTimeEntry ∉
        (startTracking_pomodoroGuard st).2.calls := by
  rw [pomGuard_cooldown st t0 hav hstate hlast ht0 hwin]
  exact ⟨rfl, by simpa using hnc⟩

theorem validateTask_cooldown (st : St) (t0 : Int)
    (hav : st.world.pomodoroAvailable = true)
    (hstate : st.world.pomodoroState = none ∨
      st.world.pomodoroState = some "null")
    (hlast : st.cfg.last_stop_time = some (some t0))
    (ht0 : t0 ≠ 0)
    (hwin : st.world.now - t0 < 10)
    (hnc : ApiCall.startTimeEntry ∉ st.calls) :
    (startTracking_validateTask st).1 = Except.ok false ∧
      ApiCall.startTimeEntry ∉ (startTracking_validateTask st).2.calls := by
  by_cases ht : truthy st.cfg.task_id = true
  · by_cases hf : ((st.world.tasksOf (st.cfg.project_id.getD "")).any
        (fun t => t.id == st.cfg.task_id.getD "")) = true
    · simp only [startTracking_validateTask, ht, if_true, world_logCall,
        cfg_logCall, world_emit, cfg_emit, hf]
      refine pomGuard_cooldown_conc _ t0 ?_ ?_ ?_ ht0 ?_ ?_
      · simpa using hav
      · simpa using hstate
      · simpa using hlast
      · simpa using hwin
      · simpa using hnc
    · have hf' : ((st.world.tasksOf (st.cfg.project_id.getD "")).any
          (fun t => t.id == st.cfg.task_id.getD "")) = false := by
        revert hf
        cases ((st.world.tasksOf (st.cfg.project_id.getD "")).any
          (fun t => t.id == st.cfg.task_id.getD "")) <;> simp
      simp only [startTracking_validateTask, ht, if_true, world_logCall,
        cfg_logCall, world_emit, cfg_emit, hf', Bool.false_eq_true, if_false]
      refine pomGuard_cooldown_conc _ t0 ?_ ?_ ?_ ht0 ?_ ?_
      · simpa using hav
      · simpa using hstate
      · simpa using hlast
      · simpa using hwin
      · simpa using hnc
  · have ht' : truthy st.cfg.task_id = false := by
      revert ht
      cases truthy st.cfg.task_id <;> simp
    simp only [startTracking_validateTask, ht', Bool.false_eq_true, if_false]
    exact pomGuard_cooldown_conc st t0 hav hstate hlast ht0 hwin hnc

theorem taskArg_cooldown (ta : Option String) (st : St) (t0 : Int)
    (hav : st.world.pomodoroAvailable = true)
    (hstate : st.world.pomodoroState = none ∨
      st.world.pomodoroState = some "null")
    (hlast : st.cfg.last_stop_time = some (some t0))
    (ht0 : t0 ≠ 0)
    (hwin : st.world.now - t0 < 10)
    (hnc : ApiCall.startTimeEntry ∉ st.calls) :
    (startTracking_taskArg ta st).1 = Except.ok false ∧
      ApiCall.startTimeEntry ∉ (startTracking_taskArg ta st).2.calls := by
  by_cases hta : truthy ta = true
  · have := validateTask_cooldown
      { st with cfg := st.cfg.set_task_id ta } t0 hav hstate
      (by simpa using hlast) ht0 hwin hnc
    simpa [startTracking_taskArg, hta] using this
  · have := validateTask_cooldown st t0 hav hstate hlast ht0 hwin hnc
    simpa [startTracking_taskArg, hta] using this

theorem projStep_cooldown (pa ta : Option String) (st : St) (t0 : Int)
    (hav : st.world.pomodoroAvailable = true)
    (hstate : st.world.pomodoroState = none ∨
      st.world.pomodoroState = some "null")
    (hlast : st.cfg.last_stop_time = some (some t0))
    (ht0 : t0 ≠ 0)
    (hwin : st.world.now - t0 < 10)
    (hnc : ApiCall.startTimeEntry ∉ st.calls) :
    (startTracking_projStep pa ta st).1 = Except.ok false ∧
      ApiCall.startTimeEntry ∉ (startTracking_projStep pa ta st).2.calls := by
  by_cases hpa : truthy pa = true
  · have := taskArg_cooldown ta
      { st with cfg := st.cfg.set_project_id (pa.getD "") } t0 hav hstate
      (by simpa using hlast) ht0 hwin hnc
    simpa [startTracking_projStep, hpa] using this
  · by_cases hp : truthy st.cfg.project_id = true
    · have := taskArg_cooldown ta st t0 hav hstate hlast ht0 hwin hnc
      simpa [startTracking_projStep, hpa, hp] using this
    · simp [startTracking_projStep, hpa, hp, hnc]

theorem descStep_cooldown (da pa ta : Option String) (st : St) (t0 : Int)
    (hav : st.world.pomodoroAvailable = true)
    (hstate : st.world.pomodoroState = none ∨
      st.world.pomodoroState = some "null")
    (hlast : st.cfg.last_stop_time = some (some t0))
    (ht0 : t0 ≠ 0)
    (hwin : st.world.now - t0 < 10)
    (hnc : ApiCall.startTimeEntry ∉ st.calls) :
    (startTracking_descStep da pa ta st).1 = Except.ok false ∧
      ApiCall.startTimeEntry ∉
        (startTracking_descStep da pa ta st).2.calls := by
  by_cases hda : truthy da = true
  · have := projStep_cooldown pa ta
      { st with cfg := st.cfg.set_description (da.getD "") } t0 hav hstate
      (by simpa using hlast) ht0 hwin hnc
    simpa [startTracking_descStep, hda] using this
  · by_cases hd : truthy st.cfg.description = true
    · have := projStep_cooldown pa ta st t0 hav hstate hlast ht0 hwin hnc
      simpa [startTracking_descStep, hda, hd] using this
    · simp [startTracking_descStep, hda, hd, hnc]

/-- C8: in a process where a stop recorded the `last_stop_time` attribute
(value `t0`, a nonzero timestamp), a `start_tracking` issued strictly less
than 10 seconds later while the break-timer integration is available and
reports the null/idle state is rejected as a spurious auto-resume: it
returns `False` and no entry-creating remote request is issued, whatever
the other arguments and configuration. -/
theorem start_tracking_cooldown_rejects (st : St) (da pa ta : Option String)
    (t0 : Int)
    (hcalls : st.calls = [])
    (hav : st.world.pomodoroAvailable = true)
    (hstate : st.world.pomodoroState = none ∨
      st.world.pomodoroState = some "null")
    (hlast : st.cfg.last_stop_time = some (some t0))
    (ht0 : t0 ≠ 0)
    (hwin : st.world.now - t0 < 10) :
    (start_tracking da pa ta st).1 = Except.ok false ∧
      ApiCall.startTimeEntry ∉ (start_tracking da pa ta st).2.calls := by
  by_cases hA : st.world.activeEntry.isSome = true
  · simp [start_tracking, hA, hcalls]
  · have hA' : st.world.activeEntry.isSome = false := by
      revert hA
      cases st.world.activeEntry.isSome <;> simp
    have := descStep_cooldown da pa ta
      (logCall st ApiCall.getCurrentTimeEntry) t0 hav hstate hlast ht0 hwin
      (by simp [hcalls])
    simpa [start_tracking, hA'] using this

/-- C8 witness: stop recorded at 95, restart attempted at 100 with the
break-timer reporting null. -/
def c8St : St :=
  ⟨{ ClockifyConfig.load baseDoc [] with last_stop_time := some (some 95) },
    { idleWorld with
        pomodoroAvailable := true
        pomodoroState := none
        now := 100 },
    [], [], []⟩

theorem start_tracking_cooldown_rejects_witness :
    (c8St.calls = [] ∧ c8St.world.pomodoroAvailable = true ∧
        c8St.world.pomodoroState = none ∧
        c8St.cfg.last_stop_time = some (some 95) ∧ (95 : Int) ≠ 0 ∧
        c8St.world.now - 95 < 10) ∧
      ((start_tracking none none none c8St).1 = Except.ok false ∧
        ApiCall.startTimeEntry ∉
          (start_tracking none none none c8St).2.calls) :=
  ⟨⟨rfl, rfl, rfl, rfl, by decide, by decide⟩,
    start_tracking_cooldown_rejects c8St none none none 95 rfl rfl
      (Or.inl rfl) rfl (by decide) (by decide)⟩

/-- C6: a selection whose `task_id` is not among the tasks the remote
service lists for the selected `project_id` never makes the operation fail
by itself.  First conjunct: `start_tracking` (with resolvable description
and project, no break-timer interference) clears `task_id` and `task_name`,
prints the warning, creates the entry without a formal task, and succeeds.
Second conjunct: `switch_to_previous_task` whose stored target has a stale
task drops to description-only with a warning and still succeeds. -/
theorem stale_task_degrades_to_description_only :
    (∀ st : St, st.world.activeEntry = none →
      st.world.pomodoroAvailable = false →
      truthy st.cfg.description = true →
      truthy st.cfg.project_id = true →
      truthy st.cfg.task_id = true →
      ((st.world.tasksOf (st.cfg.project_id.getD "")).any
        (fun t => t.id == st.cfg.task_id.getD "")) = false →
      st.world.nextEntryId ≠ "" →
      ((start_tracking none none none st).1 = Except.ok true ∧
        (start_tracking none none none st).2.cfg.task_id = none ∧
        (start_tracking none none none st).2.cfg.task_name = none ∧
        (start_tracking none none none st).2.world.activeEntry =
          some ⟨st.world.nextEntryId, some (st.cfg.description.getD ""),
            st.cfg.project_id, none⟩ ∧
        msgStaleStart ∈ (start_tracking none none none st).2.out)) ∧
    (∀ st : St, ∀ P : Selection, st.cfg.previous_task = some P →
      st.world.activeEntry = none →
      st.world.pomodoroAvailable = false →
      st.cfg.task_id = none → st.cfg.task_name = none →
      st.cfg.description = none → P.client_id = none →
      truthy P.description = true →
      truthy P.project_id = true →
      (st.world.findProject (P.project_id.getD "")).isSome = true →
      truthy P.task_id = true →
      ((st.world.tasksOf (P.project_id.getD "")).any
        (fun t => t.id == P.task_id.getD "")) = false →
      ((switch_to_previous_task st).1 = Except.ok true ∧
        (switch_to_previous_task st).2.cfg.task_id = none ∧
        (switch_to_previous_task st).2.cfg.task_name = none ∧
        (switch_to_previous_task st).2.cfg.description =
          some (P.description.getD "") ∧
        msgStaleSwitch ∈ (switch_to_previous_task st).2.out)) := by
  constructor
  · intro st hA hPom hdesc hproj htask hstale hid
    have hid' : (st.world.nextEntryId == "") = false := by simpa using hid
    have hA' : st.world.activeEntry.isSome = false := by simp [hA]
    simp [start_tracking, is_tracking_fst, is_tracking_snd, hA',
      startTracking_descStep, startTracking_projStep, startTracking_taskArg,
      startTracking_validateTask, startTracking_pomodoroGuard,
      startTracking_create, hdesc, hproj, htask, hstale, hPom, hid']
    constructor
    · show (((st.cfg.set_task_id none).set_task_name
          none).set_current_entry_id (some st.world.nextEntryId)).task_id =
        none
      simp
    · show (((st.cfg.set_task_id none).set_task_name
          none).set_current_entry_id (some st.world.nextEntryId)).task_name =
        none
      simp
  · intro st P hprev hA hPom htid htn hde hPcl hPdesc hPproj hfind hPtask
      hstale
    have hcap : (truthy st.cfg.task_id || truthy st.cfg.task_name ||
        truthy st.cfg.description) = true →
        st.cfg.client_id.isSome = true := by
      intro h
      rw [htid, htn, hde] at h
      simp at h
    have hcid : truthy P.client_id = true →
        st.cfg.client_id.isSome = true := by
      intro h
      rw [hPcl] at h
      simp at h
    obtain ⟨st', heq, hw, hprev', hcl', hproj', htask', hname', hstale',
      hdesc'⟩ :=
      switch_spec_idle st P hprev hA hPom hPdesc (fun _ => hfind) hcap hcid
    have hdrop : staleDropB st.world P = true := by
      simp [staleDropB, hPproj, hPtask, hstale]
    rw [heq]
    refine ⟨rfl, ?_, ?_, hdesc', hstale' hdrop⟩
    · rw [htask', hdrop]
      rfl
    · rw [hname', hdrop]
      rfl

/-- C6 witness fixture: project `p` exists but the configured task `tOld`
is no longer in its task list. -/
def c6StartSt : St :=
  ⟨ClockifyConfig.load
      (baseDoc ++ [("project_id", JVal.jstr "p"),
        ("task_id", JVal.jstr "tOld"), ("task_name", JVal.jstr "Told")]) [],
    { idleWorld with tasks := [("p", [⟨"tNew", "N"⟩])] }, [], [], []⟩

/-- C6 witness fixture for the switch conjunct: the previous selection names
a task `tGone` that project `p` no longer has. -/
def c6SwitchSt : St :=
  ⟨{ ClockifyConfig.load [("token", JVal.jstr "t")] [] with
      previous_task :=
        some ⟨none, some "p", some "tGone", some "G", some "prev"⟩ },
    { idleWorld with tasks := [("p", [⟨"tNew", "N"⟩])] }, [], [], []⟩

/-- C6 witness: both degradation paths at concrete states. -/
theorem stale_task_degrades_to_description_only_witness :
    (c6StartSt.world.activeEntry = none ∧
        truthy c6StartSt.cfg.description = true ∧
        truthy c6StartSt.cfg.project_id = true ∧
        truthy c6StartSt.cfg.task_id = true ∧
        ((c6StartSt.world.tasksOf (c6StartSt.cfg.project_id.getD "")).any
          (fun t => t.id == c6StartSt.cfg.task_id.getD "")) = false ∧
        (start_tracking none none none c6StartSt).1 = Except.ok true ∧
        (start_tracking none none none c6StartSt).2.cfg.task_id = none ∧
        msgStaleStart ∈ (start_tracking none none none c6StartSt).2.out) ∧
      (c6SwitchSt.cfg.previous_task =
          some ⟨none, some "p", some "tGone", some "G", some "prev"⟩ ∧
        (switch_to_previous_task c6SwitchSt).1 = Except.ok true ∧
        (switch_to_previous_task c6SwitchSt).2.cfg.task_id = none ∧
        (switch_to_previous_task c6SwitchSt).2.cfg.description =
          some "prev" ∧
        msgStaleSwitch ∈ (switch_to_previous_task c6SwitchSt).2.out) := by
  have hA := stale_task_degrades_to_description_only.1 c6StartSt rfl rfl
    (by decide) (by decide) (by decide) (by decide) (by decide)
  have hB := stale_task_degrades_to_description_only.2 c6SwitchSt
    ⟨none, some "p", some "tGone", some "G", some "prev"⟩ rfl rfl rfl rfl
    rfl rfl rfl (by decide) (by decide) (by decide) (by decide) (by decide)
  exact ⟨⟨rfl, by decide, by decide, by decide, by decide, hA.1, hA.2.1,
      hA.2.2.2.2⟩,
    ⟨rfl, hB.1, hB.2.1, hB.2.2.2.1, hB.2.2.2.2⟩⟩

/-! ### The PreviousSelection overwrite guard (C9) -/

theorem setCurrent_snapshot_prev_cases (b : Bool) (st : St) :
    (setCurrent_snapshot b st).2.cfg.previous_task =
        st.cfg.previous_task ∨
      ∃ s, (setCurrent_snapshot b st).2.cfg.previous_task = some s ∧
        s.nonEmptyB = true := by
  by_cases h : (b && (truthy st.cfg.task_id || truthy st.cfg.task_name ||
      truthy st.cfg.description)) = true
  · cases hcl : st.cfg.client_id with
    | none =>
      left
      simp [setCurrent_snapshot, h, hcl]
    | some c =>
      right
      refine ⟨⟨some c, st.cfg.project_id, st.cfg.task_id, st.cfg.task_name,
        st.cfg.description⟩, ?_, ?_⟩
      · simp [setCurrent_snapshot, h, hcl]
      · have hg := (Bool.and_eq_true_iff.mp h).2
        simp only [Selection.nonEmptyB]
        rcases Bool.or_eq_true_iff.mp hg with hg' | hg'
        · rcases Bool.or_eq_true_iff.mp hg' with hg'' | hg'' <;>
            simp [hg'']
        · simp [hg']
  · left
    simp [setCurrent_snapshot, h]

theorem set_current_save_eq (tid tname : Option String) (desc : String)
    (pid cid : Option String) (b : Bool) (st : St) :
    set_current_task_and_description tid tname desc pid cid b true st =
      (match setCurrent_snapshot true st with
        | (Except.error e, st0) => (Except.error e, st0)
        | (Except.ok _, st0) =>
            set_current_task_and_description tid tname desc pid cid b false
              st0) := by
  rcases h : setCurrent_snapshot true st with ⟨r0, st0⟩
  cases r0 with
  | error e =>
    simp only [set_current_task_and_description, h]
  | ok u =>
    have hf : setCurrent_snapshot false st0 = (Except.ok (), st0) := by
      simp [setCurrent_snapshot]
    simp only [set_current_task_and_description, h, hf]

theorem previous_task_switch_apply (P : Selection) (st : St) :
    (switch_apply P st).2.cfg.previous_task = st.cfg.previous_task := by
  simp only [switch_apply]
  by_cases hd : truthy P.description = true
  · rw [if_pos hd]
    by_cases hr : (truthy P.project_id && truthy P.task_id) = true
    · rw [if_pos hr]
      simp only [world_logCall]
      by_cases hf : ((st.world.tasksOf (P.project_id.getD "")).any
          (fun t => t.id == P.task_id.getD "")) = true
      · rw [if_pos hf]
        simp only []
        have hp := previous_task_set_current_noSave P.task_id P.task_name
          (P.description.getD "") P.project_id P.client_id true
          (logCall st (ApiCall.getProjectTasks (P.project_id.getD "")))
        rcases hsc : set_current_task_and_description P.task_id P.task_name
            (P.description.getD "") P.project_id P.client_id true false
            (logCall st (ApiCall.getProjectTasks (P.project_id.getD "")))
          with ⟨rc, st'⟩
        rw [hsc] at hp
        cases rc <;> simpa using hp
      · rw [if_neg hf]
        simp only []
        have hp := previous_task_set_current_noSave none none
          (P.description.getD "") P.project_id P.client_id true
          (emit (logCall st (ApiCall.getProjectTasks (P.project_id.getD "")))
            msgStaleSwitch)
        rcases hsc : set_current_task_and_description none none
            (P.description.getD "") P.project_id P.client_id true false
            (emit (logCall st
              (ApiCall.getProjectTasks (P.project_id.getD "")))
              msgStaleSwitch)
          with ⟨rc, st'⟩
        rw [hsc] at hp
        cases rc <;> simpa using hp
    · rw [if_neg hr]
      simp only []
      have hp := previous_task_set_current_noSave P.task_id P.task_name
        (P.description.getD "") P.project_id P.client_id true st
      rcases hsc : set_current_task_and_description P.task_id P.task_name
          (P.description.getD "") P.project_id P.client_id true false st
        with ⟨rc, st'⟩
      rw [hsc] at hp
      cases rc <;> simpa using hp
  · rw [if_neg hd]
    rfl

theorem switch_capture_prev_cases (st : St)
    (hA : st.world.activeEntry = none) :
    (switch_capture st).2.cfg.previous_task = st.cfg.previous_task ∨
      ∃ s, (switch_capture st).2.cfg.previous_task = some s ∧
        s.nonEmptyB = true := by
  by_cases hg : (truthy st.cfg.task_id || truthy st.cfg.task_name ||
      truthy st.cfg.description) = true
  · cases hcl : st.cfg.client_id with
    | none =>
      left
      simp [switch_capture, hA, hg, hcl]
    | some c =>
      right
      refine ⟨⟨some c, st.cfg.project_id, st.cfg.task_id, st.cfg.task_name,
        st.cfg.description⟩, ?_, ?_⟩
      · simp [switch_capture, hA, hg, hcl]
      · simp only [Selection.nonEmptyB]
        rcases Bool.or_eq_true_iff.mp hg with hg' | hg'
        · rcases Bool.or_eq_true_iff.mp hg' with hg'' | hg'' <;>
            simp [hg'']
        · simp [hg']
  · left
    simp [switch_capture, hA, hg]

/-- C9 amended: the guarded overwrite sites — the snapshot step of
`set_current_task_and_description` and the no-active-entry capture in
`switch_to_previous_task` — never replace the `previous_task` slot with an
entirely empty snapshot: whenever they change it, the new snapshot has at
least one non-empty field.  (The live-entry capture in the switch is not
guarded; see the counterexample.) -/
theorem previous_selection_guard_amended :
    (∀ (st : St) (tid tname : Option String) (desc : String)
      (pid cid : Option String) (b : Bool),
      (set_current_task_and_description tid tname desc pid cid b true
          st).2.cfg.previous_task = st.cfg.previous_task ∨
        ∃ s, (set_current_task_and_description tid tname desc pid cid b true
          st).2.cfg.previous_task = some s ∧ s.nonEmptyB = true) ∧
    (∀ st : St, st.world.activeEntry = none →
      ((switch_to_previous_task st).2.cfg.previous_task =
          st.cfg.previous_task ∨
        ∃ s, (switch_to_previous_task st).2.cfg.previous_task = some s ∧
          s.nonEmptyB = true)) := by
  constructor
  · intro st tid tname desc pid cid b
    rw [set_current_save_eq]
    rcases hsnap : setCurrent_snapshot true st with ⟨r0, st0⟩
    have hcases := setCurrent_snapshot_prev_cases true st
    rw [hsnap] at hcases
    cases r0 with
    | error e => simpa using hcases
    | ok u =>
      have hp := previous_task_set_current_noSave tid tname desc pid cid b
        st0
      simp only []
      rw [hp]
      simpa using hcases
  · intro st hA
    simp only [switch_to_previous_task]
    cases hprev : st.cfg.previous_task with
    | none =>
      left
      exact hprev
    | some prev =>
      have hcases := switch_capture_prev_cases st hA
      rcases hcap : switch_capture st with ⟨rc, stc⟩
      rw [hcap] at hcases
      simp only [] at hcases
      rw [hprev] at hcases
      cases rc with
      | error e => simpa using hcases
      | ok u =>
        simp only []
        by_cases hinc : (!truthy prev.task_id && !truthy prev.task_name &&
            !truthy prev.description) = true
        · rw [if_pos hinc]
          simpa using hcases
        · rw [if_neg hinc]
          by_cases hp : truthy prev.project_id = true
          · rw [if_pos hp]
            by_cases hn : ((logCall (emit stc msgSwitchingBack)
                ApiCall.getProjects).world.findProject
                  (prev.project_id.getD "")).isNone = true
            · rw [if_pos hn]
              simpa using hcases
            · rw [if_neg hn]
              have hpa := previous_task_switch_apply prev
                (logCall (emit stc msgSwitchingBack) ApiCall.getProjects)
              rw [hpa]
              simpa using hcases
          · rw [if_neg hp]
            have hpa := previous_task_switch_apply prev
              (emit stc msgSwitchingBack)
            rw [hpa]
            simpa using hcases

/-- C9 counterexample state: a remote entry with an empty description and
no project or task is active, and a previous selection exists. -/
def c9CexSt : St :=
  ⟨{ ClockifyConfig.load [] [] with
      previous_task := some ⟨none, none, none, none, some "x"⟩ },
    { idleWorld with
        activeEntry := some ⟨"e1", some "", none, none⟩
        now := 50 },
    [], [], []⟩

/-- C9 counterexample: the live-entry capture of `switch_to_previous_task`
overwrites `previous_task` with an entirely empty snapshot (every field
`None` or empty), refuting the claim that no operation ever replaces
PreviousSelection with an empty snapshot. -/
theorem switch_capture_empty_snapshot_cex :
    c9CexSt.cfg.previous_task = some ⟨none, none, none, none, some "x"⟩ ∧
      Selection.nonEmptyB ⟨none, none, none, none, some "x"⟩ = true ∧
      (switch_to_previous_task c9CexSt).1 = Except.ok true ∧
      (switch_to_previous_task c9CexSt).2.cfg.previous_task =
        some ⟨none, none, none, none, some ""⟩ ∧
      Selection.nonEmptyB ⟨none, none, none, none, some ""⟩ = false := by
  refine ⟨rfl, by decide, rfl, rfl, by decide⟩

/-- C9 witness: the amended guard at a concrete state (a selection change
and an idle-world switch). -/
theorem previous_selection_guard_amended_witness :
    ((set_current_task_and_description (some "t2") (some "T2") "d2" none
        none true true c6StartSt).2.cfg.previous_task =
          c6StartSt.cfg.previous_task ∨
      ∃ s, (set_current_task_and_description (some "t2") (some "T2") "d2"
        none none true true c6StartSt).2.cfg.previous_task = some s ∧
          s.nonEmptyB = true) ∧
      (c6SwitchSt.world.activeEntry = none ∧
        ((switch_to_previous_task c6SwitchSt).2.cfg.previous_task =
            c6SwitchSt.cfg.previous_task ∨
          ∃ s, (switch_to_previous_task c6SwitchSt).2.cfg.previous_task =
            some s ∧ s.nonEmptyB = true)) :=
  ⟨previous_selection_guard_amended.1 c6StartSt (some "t2") (some "T2")
      "d2" none none true,
    ⟨rfl, previous_selection_guard_amended.2 c6SwitchSt rfl⟩⟩

/-! ### Switch-twice behaviour (C1) -/

/-- C1 counterexample fixture: a remote active entry whose project `p` has
no client, so the canonical live-captured `client_id` is empty. -/
def c1LiveCexE : TimeEntry := ⟨"e1", some "canon", some "p", none⟩

/-- C1 counterexample fixture: a state with `c1LiveCexE` running remotely
whose previous selection names client `c9` and project `p2`. -/
def c1LiveCexSt : St :=
  ⟨{ ClockifyConfig.load [("token", JVal.jstr "t")] [] with
      client_id := some "c0"
      previous_task :=
        some ⟨some "c9", some "p2", none, none, some "prev"⟩ },
    { activeEntry := some c1LiveCexE
      clients := []
      projects := [⟨"p", "Proj", none⟩, ⟨"p2", "P2", none⟩]
      tasks := []
      pomodoroAvailable := false
      pomodoroState := none
      now := 0
      nextEntryId := "e9" },
    [], [], []⟩

/-- C1 counterexample.  First scenario: with no remote entry running, the
canonical pre-switch state is the persisted configuration, here with NO
project selected (and description `work`); the previous selection names
project `p`.  Two switches both succeed, yet the final selection holds
project `p`: the selection-applying step never clears
`project_id`/`client_id` when the incoming value is empty, so switching
twice does not return to a state equivalent to the original selection.
Second scenario: the canonical state is captured from a remote active
entry whose project has no client, so the canonical `client_id` is empty;
two switches both succeed, yet the final `client_id` is the previous
selection value `c9` applied by the first switch — an empty canonical
`client_id` is not restored either. -/
theorem switch_twice_not_involutive_cex :
    (c1CexSt.world.activeEntry = none ∧
      c1CexSt.cfg.project_id = none ∧
      (switch_to_previous_task c1CexSt).1 = Except.ok true ∧
      (switch_to_previous_task (switch_to_previous_task c1CexSt).2).1 =
        Except.ok true ∧
      (switch_to_previous_task
        (switch_to_previous_task c1CexSt).2).2.cfg.project_id = some "p" ∧
      selectionOf (switch_to_previous_task
        (switch_to_previous_task c1CexSt).2).2.cfg ≠
        selectionOf c1CexSt.cfg) ∧
    (c1LiveCexSt.world.activeEntry = some c1LiveCexE ∧
      (captureLive c1LiveCexSt.world c1LiveCexE).client_id = none ∧
      (switch_to_previous_task c1LiveCexSt).1 = Except.ok true ∧
      (switch_to_previous_task
        (switch_to_previous_task c1LiveCexSt).2).1 = Except.ok true ∧
      (switch_to_previous_task
        (switch_to_previous_task c1LiveCexSt).2).2.cfg.client_id =
        some "c9") := by
  exact ⟨⟨rfl, rfl, rfl, rfl, rfl, by decide⟩, ⟨rfl, rfl, rfl, rfl, rfl⟩⟩

/-- C1 amended.  Part 1 (persisted canonical state): with no remote entry
running the canonical pre-switch state is the persisted configuration;
under a readable client attribute, a non-empty previous selection and
stable projects/tasks, two successive switches restore `task_id`,
`task_name` and `description` exactly; `client_id` is restored because it
is non-empty, and `project_id` is restored provided the canonical state
had a non-empty project.  Part 2 (live canonical state): with a remote
entry running the canonical pre-switch state is captured from that entry;
under the analogous side conditions two successive switches restore
`task_id`, `task_name`, `description` and `project_id` to the captured
values, and `client_id` is restored exactly when the captured client is
non-empty — an empty canonical `client_id` leaves the value applied by
the first switch in place (see the counterexample). -/
theorem switch_twice_restores_amended :
    (∀ (st : St) (P : Selection) (c0 : String),
      st.cfg.previous_task = some P →
      st.world.activeEntry = none →
      st.world.pomodoroAvailable = false →
      truthy P.description = true →
      (truthy P.project_id = true →
        (st.world.findProject (P.project_id.getD "")).isSome = true) →
      st.cfg.client_id = some c0 →
      c0 ≠ "" →
      truthy st.cfg.description = true →
      (truthy st.cfg.project_id = true →
        (st.world.findProject (st.cfg.project_id.getD "")).isSome =
          true) →
      staleDropB st.world ⟨some c0, st.cfg.project_id, st.cfg.task_id,
        st.cfg.task_name, st.cfg.description⟩ = false →
      (st.cfg.task_id = none ∨ truthy st.cfg.task_id = true) →
      ∃ st1 st2,
        switch_to_previous_task st = (Except.ok true, st1) ∧
        switch_to_previous_task st1 = (Except.ok true, st2) ∧
        st2.cfg.task_id = st.cfg.task_id ∧
        st2.cfg.task_name = st.cfg.task_name ∧
        st2.cfg.description = st.cfg.description ∧
        st2.cfg.client_id = some c0 ∧
        (truthy st.cfg.project_id = true →
          st2.cfg.project_id = st.cfg.project_id)) ∧
    (∀ (st : St) (e : TimeEntry) (P : Selection) (c0 : String),
      st.cfg.previous_task = some P →
      st.world.activeEntry = some e →
      st.world.pomodoroAvailable = false →
      truthy P.description = true →
      (truthy P.project_id = true →
        (st.world.findProject (P.project_id.getD "")).isSome = true) →
      (truthy P.project_id = true ∨ truthy st.cfg.project_id = true) →
      (truthy P.task_id = true → truthy P.project_id = true ∧
        ((st.world.tasksOf (P.project_id.getD "")).any
          (fun t => t.id == P.task_id.getD "")) = true) →
      st.world.nextEntryId ≠ "" →
      st.cfg.client_id = some c0 →
      truthy e.description = true →
      truthy e.projectId = true →
      (st.world.findProject (e.projectId.getD "")).isSome = true →
      (e.taskId = none ∨ (truthy e.taskId = true ∧
        ((st.world.tasksOf (e.projectId.getD "")).any
          (fun t => t.id == e.taskId.getD "")) = true)) →
      ∃ st1 st2,
        switch_to_previous_task st = (Except.ok true, st1) ∧
        switch_to_previous_task st1 = (Except.ok true, st2) ∧
        st2.cfg.task_id = e.taskId ∧
        st2.cfg.task_name = (captureLive st.world e).task_name ∧
        st2.cfg.description = e.description ∧
        st2.cfg.project_id = e.projectId ∧
        (truthy (captureLive st.world e).client_id = true →
          st2.cfg.client_id = (captureLive st.world e).client_id) ∧
        (truthy (captureLive st.world e).client_id = false →
          st2.cfg.client_id = (if truthy P.client_id then
            some (P.client_id.getD "") else some c0))) := by
  constructor
  · intro st P c0 hprev hA hPom hPdesc hPproj hcl hc0 hSdesc hSproj hStask
      hSsane
    have hcap : (truthy st.cfg.task_id || truthy st.cfg.task_name ||
        truthy st.cfg.description) = true →
        st.cfg.client_id.isSome = true := by
      intro _
      rw [hcl]
      rfl
    have hcid1 : truthy P.client_id = true →
        st.cfg.client_id.isSome = true := by
      intro _
      rw [hcl]
      rfl
    obtain ⟨st1, h1eq, h1w, h1prev, h1cl, h1proj, h1task, h1name, h1stale,
      h1desc⟩ :=
      switch_spec_idle st P hprev hA hPom hPdesc hPproj hcap hcid1
    have hg : (truthy st.cfg.task_id || truthy st.cfg.task_name ||
        truthy st.cfg.description) = true := by
      simp [hSdesc]
    rw [if_pos hg, hcl] at h1prev
    simp only [Option.getD_some] at h1prev
    have hA1 : st1.world.activeEntry = none := by
      rw [h1w]
      exact hA
    have hPom1 : st1.world.pomodoroAvailable = false := by
      rw [h1w]
      exact hPom
    have hproj1 : truthy (⟨some c0, st.cfg.project_id, st.cfg.task_id,
        st.cfg.task_name, st.cfg.description⟩ : Selection).project_id = true →
        (st1.world.findProject
          ((⟨some c0, st.cfg.project_id, st.cfg.task_id, st.cfg.task_name,
            st.cfg.description⟩ : Selection).project_id.getD "")).isSome =
          true := by
      intro h
      rw [h1w]
      exact hSproj h
    have hcap1 : (truthy st1.cfg.task_id || truthy st1.cfg.task_name ||
        truthy st1.cfg.description) = true →
        st1.cfg.client_id.isSome = true := by
      intro _
      rw [h1cl]
      split
      · rfl
      · rw [hcl]
        rfl
    have hcid2 : truthy (⟨some c0, st.cfg.project_id, st.cfg.task_id,
        st.cfg.task_name, st.cfg.description⟩ : Selection).client_id = true →
        st1.cfg.client_id.isSome = true := by
      intro _
      rw [h1cl]
      split
      · rfl
      · rw [hcl]
        rfl
    obtain ⟨st2, h2eq, h2w, h2prev, h2cl, h2proj, h2task, h2name, h2stale,
      h2desc⟩ :=
      switch_spec_idle st1
        ⟨some c0, st.cfg.project_id, st.cfg.task_id, st.cfg.task_name,
          st.cfg.description⟩
        h1prev hA1 hPom1 hSdesc hproj1 hcap1 hcid2
    have hdrop1 : staleDropB st1.world
        ⟨some c0, st.cfg.project_id, st.cfg.task_id, st.cfg.task_name,
          st.cfg.description⟩ = false := by
      rw [h1w]
      exact hStask
    refine ⟨st1, st2, h1eq, h2eq, ?_, ?_, ?_, ?_, ?_⟩
    · rw [h2task, hdrop1]
      simp only [Bool.false_eq_true, if_false]
      rcases hSsane with hn | ht
      · show (if truthy st.cfg.task_id then some (st.cfg.task_id.getD "")
          else none) = st.cfg.task_id
        rw [hn]
        rfl
      · show (if truthy st.cfg.task_id then some (st.cfg.task_id.getD "")
          else none) = st.cfg.task_id
        rw [if_pos ht]
        exact truthy_some_getD ht
    · rw [h2name, hdrop1]
      rfl
    · rw [h2desc]
      exact truthy_some_getD hSdesc
    · rw [h2cl]
      have hc : truthy (⟨some c0, st.cfg.project_id, st.cfg.task_id,
          st.cfg.task_name, st.cfg.description⟩ : Selection).client_id =
          true := by
        show truthy (some c0) = true
        simp [hc0]
      rw [if_pos hc]
      rfl
    · intro hp
      rw [h2proj]
      have hc : truthy (⟨some c0, st.cfg.project_id, st.cfg.task_id,
          st.cfg.task_name, st.cfg.description⟩ : Selection).project_id =
          true := hp
      rw [if_pos hc]
      exact truthy_some_getD hp
  · intro st e P c0 hprev hA hPom hPdesc hPproj hRproj hPtask hid hcl
      hedesc heproj heprojEx hetask
    have hcid1 : truthy P.client_id = true →
        st.cfg.client_id.isSome = true := by
      intro _
      rw [hcl]
      rfl
    obtain ⟨st1, h1eq, h1prev, h1cl, h1proj, h1task, h1name, h1desc,
      h1w⟩ :=
      switch_spec_live st e P hprev hA hPom hPdesc hPproj hRproj hPtask
        hid hcid1
    have hA1 : st1.world.activeEntry = some ⟨st.world.nextEntryId, some (P.description.getD ""), (if truthy P.project_id then some (P.project_id.getD "") else st.cfg.project_id), (if truthy P.task_id then some (P.task_id.getD "") else none)⟩ := by
      rw [h1w]
    have hPom1 : st1.world.pomodoroAvailable = false := by
      rw [h1w]
      exact hPom
    have hPdesc1 : truthy (captureLive st.world e).description = true :=
      hedesc
    have hPproj1 : truthy (captureLive st.world e).project_id = true →
        (st1.world.findProject
          ((captureLive st.world e).project_id.getD "")).isSome = true := by
      intro _
      rw [h1w]
      exact heprojEx
    have hRz1 : truthy (captureLive st.world e).project_id = true ∨
        truthy st1.cfg.project_id = true := Or.inl heproj
    have hPtask1 : truthy (captureLive st.world e).task_id = true →
        truthy (captureLive st.world e).project_id = true ∧
        ((st1.world.tasksOf
          ((captureLive st.world e).project_id.getD "")).any
          (fun t => t.id ==
            (captureLive st.world e).task_id.getD "")) = true := by
      intro h
      rcases hetask with hn | ⟨_, hany⟩
      · exfalso
        have h2 : truthy e.taskId = true := h
        rw [hn] at h2
        simp [truthy] at h2
      · refine ⟨heproj, ?_⟩
        rw [h1w]
        exact hany
    have hid1 : st1.world.nextEntryId ≠ "" := by
      rw [h1w]
      exact hid
    have hcid2 : truthy (captureLive st.world e).client_id = true →
        st1.cfg.client_id.isSome = true := by
      intro _
      rw [h1cl]
      split
      · rfl
      · rw [hcl]
        rfl
    obtain ⟨st2, h2eq, _, h2cl, h2proj, h2task, h2name, h2desc, _⟩ :=
      switch_spec_live st1
        ⟨st.world.nextEntryId, some (P.description.getD ""), (if truthy P.project_id then some (P.project_id.getD "") else st.cfg.project_id), (if truthy P.task_id then some (P.task_id.getD "") else none)⟩
        (captureLive st.world e) h1prev hA1 hPom1 hPdesc1 hPproj1 hRz1
        hPtask1 hid1 hcid2
    refine ⟨st1, st2, h1eq, h2eq, ?_, ?_, ?_, ?_, ?_, ?_⟩
    · rw [h2task]
      show (if truthy e.taskId then some (e.taskId.getD "")
        else none) = e.taskId
      rcases hetask with hn | ⟨het, _⟩
      · rw [hn]
        rfl
      · rw [if_pos het]
        exact truthy_some_getD het
    · exact h2name
    · rw [h2desc]
      show some (e.description.getD "") = e.description
      exact truthy_some_getD hedesc
    · rw [h2proj]
      show (if truthy e.projectId then some (e.projectId.getD "")
        else st1.cfg.project_id) = e.projectId
      rw [if_pos heproj]
      exact truthy_some_getD heproj
    · intro h
      rw [h2cl, if_pos h]
      exact truthy_some_getD h
    · intro h
      rw [h2cl, if_neg (by simp [h]), h1cl, hcl]

/-- C1 witness fixture: the previous selection of the amended theorem. -/
def c1WP : Selection :=
  ⟨some "c9", some "p2", some "t2", some "T2", some "prev"⟩

/-- C1 witness fixture: a full persisted selection with stable projects. -/
def c1WSt : St :=
  ⟨{ ClockifyConfig.load
      [("token", JVal.jstr "t"), ("project_id", JVal.jstr "p1"),
        ("task_id", JVal.jstr "t1"), ("task_name", JVal.jstr "T1"),
        ("description", JVal.jstr "work")] [] with
      client_id := some "c0"
      previous_task := some c1WP },
    { activeEntry := none
      clients := []
      projects := [⟨"p1", "P1", none⟩, ⟨"p2", "P2", none⟩]
      tasks := [("p1", [⟨"t1", "T1"⟩]), ("p2", [⟨"t2", "T2"⟩])]
      pomodoroAvailable := false
      pomodoroState := none
      now := 0
      nextEntryId := "e" },
    [], [], []⟩

/-- C1 witness fixture: a remote active entry carrying the canonical live
selection (project `pL` with client `cL`, task `tL`). -/
def c1LiveE : TimeEntry := ⟨"e1", some "canon", some "pL", some "tL"⟩

/-- C1 witness fixture: a state with `c1LiveE` running remotely for the
live canonical branch of the amended theorem. -/
def c1LiveSt : St :=
  ⟨{ ClockifyConfig.load [("token", JVal.jstr "t")] [] with
      client_id := some "c0"
      previous_task := some c1WP },
    { activeEntry := some c1LiveE
      clients := []
      projects := [⟨"pL", "PL", some "cL"⟩, ⟨"p2", "P2", none⟩]
      tasks := [("pL", [⟨"tL", "TL"⟩]), ("p2", [⟨"t2", "T2"⟩])]
      pomodoroAvailable := false
      pomodoroState := none
      now := 0
      nextEntryId := "e9" },
    [], [], []⟩

/-- C1 witness: the amended restoration at a concrete state, for both the
persisted and the live canonical branch. -/
theorem switch_twice_restores_amended_witness :
    ((c1WSt.cfg.previous_task = some c1WP ∧
        c1WSt.world.activeEntry = none ∧
        truthy c1WP.description = true ∧
        c1WSt.cfg.client_id = some "c0") ∧
      (∃ st1 st2, switch_to_previous_task c1WSt = (Except.ok true, st1) ∧
        switch_to_previous_task st1 = (Except.ok true, st2) ∧
        st2.cfg.task_id = c1WSt.cfg.task_id ∧
        st2.cfg.task_name = c1WSt.cfg.task_name ∧
        st2.cfg.description = c1WSt.cfg.description ∧
        st2.cfg.client_id = some "c0" ∧
        (truthy c1WSt.cfg.project_id = true →
          st2.cfg.project_id = c1WSt.cfg.project_id))) ∧
    ((c1LiveSt.world.activeEntry = some c1LiveE ∧
        truthy (captureLive c1LiveSt.world c1LiveE).client_id = true) ∧
      (∃ st1 st2, switch_to_previous_task c1LiveSt = (Except.ok true, st1) ∧
        switch_to_previous_task st1 = (Except.ok true, st2) ∧
        st2.cfg.task_id = c1LiveE.taskId ∧
        st2.cfg.task_name = (captureLive c1LiveSt.world c1LiveE).task_name ∧
        st2.cfg.description = c1LiveE.description ∧
        st2.cfg.project_id = c1LiveE.projectId ∧
        (truthy (captureLive c1LiveSt.world c1LiveE).client_id = true →
          st2.cfg.client_id =
            (captureLive c1LiveSt.world c1LiveE).client_id) ∧
        (truthy (captureLive c1LiveSt.world c1LiveE).client_id = false →
          st2.cfg.client_id = (if truthy c1WP.client_id then
            some (c1WP.client_id.getD "") else some "c0")))) :=
  ⟨⟨⟨rfl, rfl, by decide, rfl⟩,
      switch_twice_restores_amended.1 c1WSt c1WP "c0" rfl rfl rfl
        (by decide) (fun _ => by decide) rfl (by decide) (by decide)
        (fun _ => by decide) (by decide) (Or.inr (by decide))⟩,
    ⟨⟨rfl, by decide⟩,
      switch_twice_restores_amended.2 c1LiveSt c1LiveE c1WP "c0" rfl rfl
        rfl (by decide) (fun _ => by decide) (Or.inl (by decide))
        (fun _ => ⟨by decide, by decide⟩) (by decide) rfl (by decide)
        (by decide) (by decide) (Or.inr ⟨by decide, by decide⟩)⟩⟩

end Clockify
